import Mathlib

/-!
Shallow embedding of the request-normalization, retry, response-translation and
stream-translation core of the OpenAI-compatible Bedrock proxy
(`src/aws-claude.py`), together with theorems settling the frozen claims.

Conventions of the embedding:
* Python dict fields that may be absent are `Option`; `dict.get(k, d)` becomes
  `(·.getD d)`.
* Token counts are natural numbers; `int(max_tokens / 2)` on a nonnegative int
  is `· / 2` on `ℕ`, and `int(max_tokens * 0.8)` (a float product truncated)
  agrees with `4 * n / 5` on `ℕ` for every value reachable here (`max_tokens`
  is capped at 128000; the float product `n * 0.8` truncates to `⌊4n/5⌋` for all
  `n ≤ 300000`, checked exhaustively).
* Values whose runtime type Python inspects dynamically (the explicit thinking
  budgets) are a small sum type `PyNum`; operations that would raise a
  `TypeError` return `Except Unit`.
* The Flask handlers are pure functions from the request body to a
  `HandlerResult`: an HTTP 400 error body, an HTTP 500 (an uncaught exception
  reaching the handler's `except` clause), or the JSON body dispatched to the
  backend.
-/

namespace AwsClaude

/-- Characters of `needle` literally match a prefix of `hay`; helper for the
embedding of Python's substring test. -/
def charsMatch : List Char → List Char → Bool
  | [], _ => true
  | _ :: _, [] => false
  | a :: as, b :: bs => a == b && charsMatch as bs

/-- Whether `needle` occurs as a contiguous run inside the second list. -/
def containsSeq (needle : List Char) : List Char → Bool
  | [] => charsMatch needle []
  | b :: bs => charsMatch needle (b :: bs) || containsSeq needle bs

/-- Embedding of Python's substring test `needle in hay` on strings
(used by the source as `'claude-3-7' in model_name`). -/
def strContains (hay needle : String) : Bool :=
  containsSeq needle.toList hay.toList

/-- Python `str.strip()` with no argument: drop leading and trailing
whitespace. -/
def pyStrip (s : String) : String :=
  String.mk
    (((s.toList.dropWhile Char.isWhitespace).reverse.dropWhile
      Char.isWhitespace).reverse)

/-- Decimal integer parse modeling Python's `int(str)`: digits with an
optional sign (Python also tolerates surrounding whitespace and underscores,
not needed here).  `none` models the `ValueError`. -/
def parseNatChars : List Char → Option ℕ → Option ℕ
  | [], acc => acc
  | c :: cs, acc =>
    if c.isDigit then
      parseNatChars cs (some ((acc.getD 0) * 10 + (c.toNat - 48)))
    else none

/-- Python `int(s)` on a string, as an optional integer. -/
def pyInt? (s : String) : Option ℤ :=
  match s.toList with
  | '-' :: rest => (parseNatChars rest none).map fun n => -(n : ℤ)
  | '+' :: rest => (parseNatChars rest none).map fun n => (n : ℤ)
  | cs => (parseNatChars cs none).map fun n => (n : ℤ)

/-- Global constant `DEFAULT_MAX_TOKENS = 4096` (line 84). -/
def DEFAULT_MAX_TOKENS : ℕ := 4096

/-- Global constant `MAX_OUTPUT_TOKENS = 128000` (line 85). -/
def MAX_OUTPUT_TOKENS : ℕ := 128000

/-- Retry configuration `MAX_RETRIES = 5` (line 103). -/
def MAX_RETRIES : ℕ := 5

/-- Retry configuration `BASE_DELAY = 1` second (line 104). -/
def BASE_DELAY : ℚ := 1

/-- Retry configuration `MAX_DELAY = 30` seconds (line 105). -/
def MAX_DELAY : ℚ := 30

/-- Default Bedrock model id `DEFAULT_MODEL_ID` (line 100). -/
def DEFAULT_MODEL_ID : String := "us.anthropic.claude-3-7-sonnet-20250219-v1:0"

/-- The alias → backend-model-id catalog `MODEL_MAPPING` (lines 88-97),
in source order (the order matters for the reverse lookup in
`invoke_with_retry`, which takes the first match). -/
def MODEL_MAPPING : List (String × String) :=
  [ ("claude-3-7-sonnet", "us.anthropic.claude-3-7-sonnet-20250219-v1:0")
  , ("claude-3-7-sonnet-thinking", "us.anthropic.claude-3-7-sonnet-20250219-v1:0")
  , ("claude-3-opus", "anthropic.claude-3-opus-20240229-v1:0")
  , ("claude-3-5-sonnet", "anthropic.claude-3-5-sonnet-20240620-v1:0")
  , ("claude-3-sonnet", "anthropic.claude-3-sonnet-20240229-v1:0")
  , ("claude-3-haiku", "anthropic.claude-3-haiku-20240307-v1:0")
  , ("claude-2", "anthropic.claude-v2:1")
  , ("claude-instant", "anthropic.claude-instant-v1") ]

/-- A client-supplied numeric-ish JSON value for a thinking budget: either an
integer or a string (the two runtime types whose handling the claims exercise:
ints flow through, strings make Python's `max`/`int` raise or fall back). -/
inductive PyNum
  | intV (n : ℤ)
  | strV (s : String)
deriving DecidableEq, Repr

/-- Python truthiness of a `PyNum` (`0` and `""` are falsy). -/
def truthyNum : PyNum → Bool
  | .intV n => n != 0
  | .strV s => s != ""

/-- Truthiness of `req.get(field, None)` for an optional numeric field. -/
def truthyNumOpt : Option PyNum → Bool
  | none => false
  | some v => truthyNum v

/-- Python `max(1024, v)` as executed on line 485/770: succeeds on an int,
raises `TypeError` when `v` is a string (int/str are not comparable). -/
def pyMax1024 : PyNum → Except Unit ℤ
  | .intV n => .ok (max 1024 n)
  | .strV _ => .error ()

/-- Python `int(v)` coercion as used by `validate_bedrock_request`
(lines 229, 280): an int is itself, a string parses as a decimal integer or
fails. -/
def pyIntCoerce : PyNum → Option ℤ
  | .intV n => some n
  | .strV s => pyInt? s

/-- The fixed precedence chain over the three convenience budget fields
(lines 474-479 / 759-764): the first Python-truthy one wins. -/
def firstTruthyNum (a b c : Option PyNum) : Option PyNum :=
  if truthyNumOpt a then a
  else if truthyNumOpt b then b
  else if truthyNumOpt c then c
  else none

/-- Python `int(n * 0.8)` for the nonnegative token counts reachable here
(`max_tokens ≤ 128000`): the truncated float product agrees with `⌊4n/5⌋`. -/
def int08 (n : ℕ) : ℕ := 4 * n / 5

/-- The per-endpoint thinking-budget computation, duplicated verbatim in the
two handlers (lines 473-491 and 758-776):
take the first truthy convenience field, else default to
`max(4000, int(max_tokens / 2))`; clamp below by `max(1024, ·)` (which raises
`TypeError` on a string value); if the result is `≥ max_tokens`, reset it to
`int(max_tokens * 0.8)`. -/
def computeThinkingBudget (f1 f2 f3 : Option PyNum) (maxTokens : ℕ) :
    Except Unit ℤ := do
  let raw : PyNum :=
    match firstTruthyNum f1 f2 f3 with
    | some v => v
    | none => .intV (max 4000 ((maxTokens / 2 : ℕ) : ℤ))
  let b ← pyMax1024 raw
  if b ≥ (maxTokens : ℤ) then
    return ((int08 maxTokens : ℕ) : ℤ)
  else
    return b

/-- The spec's words for the default budget (§4.2 step 2, second bullet):
`max(1024, min(floor(0.8 × maxTokens), maxTokens − 1))`.  Stated from the
spec for comparison with the code's computation. -/
def specDefaultBudget (maxTokens : ℕ) : ℤ :=
  max 1024 (min ((4 * maxTokens / 5 : ℕ) : ℤ) ((maxTokens : ℤ) - 1))

/-- One element of a multimodal message-content list, with the fields the
source reads: `item.get('type')`, `item.get('text', '')`,
`item.get('thinking', '')`. -/
structure ContentItem where
  type_ : Option String
  text : String
  thinking : String
deriving DecidableEq, Repr

/-- A chat message's `content` value: a plain string or a multimodal list. -/
inductive MsgContent
  | str (s : String)
  | list (items : List ContentItem)
deriving DecidableEq, Repr

/-- A chat message `{role, content}`. -/
structure Message where
  role : String
  content : MsgContent
deriving DecidableEq, Repr

/-- The `thinking` dict the handlers place into the Bedrock body
(`{"type": "enabled", "budget_tokens": b}`); fields optional because
`validate_bedrock_request` probes for their absence. -/
structure ThinkingDict where
  type_ : Option String
  budgetTokens : Option PyNum
deriving DecidableEq, Repr

/-- The Bedrock invocation body assembled by the handlers (`bed_params`).
`anthropicBeta = []` models the key being absent. -/
structure BedParams where
  maxTokens : ℤ
  temperature : ℚ
  topP : Option ℚ
  messages : List Message
  thinking : Option ThinkingDict
  stopSequences : Option (List String)
  anthropicBeta : List String
deriving DecidableEq, Repr

/-- The client's `thinking` request field: the JSON bool, or an object
(a non-empty dict, which is truthy; the source never reads its entries in the
handlers, only its truthiness and whether it `is False`). -/
inductive PyThinking
  | boolV (b : Bool)
  | objV
deriving DecidableEq, Repr

/-- Truthiness of `req.get('thinking', False)`. -/
def truthyThinking : Option PyThinking → Bool
  | none => false
  | some (.boolV b) => b
  | some .objV => true

/-- Enablement decision shared by both handlers (lines 427-437 / 698-708):
start from `model_name == 'claude-3-7-sonnet-thinking'`, turn off when the
client passed the literal `thinking: false`, turn on when `thinking` is
truthy. -/
def useThinkingMode (modelName : String) (thinking : Option PyThinking) : Bool :=
  let u := modelName == "claude-3-7-sonnet-thinking"
  let u := if u && (thinking == some (.boolV false)) then false else u
  if truthyThinking thinking then true else u

/-- Result of running a handler on a request body: HTTP 400 with an error
message, HTTP 500 (an exception reached the handler's outer `except`), or the
body handed to `invoke_with_retry` for dispatch to Bedrock. -/
inductive HandlerResult
  | badRequest (msg : String)
  | serverError
  | dispatch (p : BedParams)
deriving DecidableEq, Repr

/-- The request body of `POST /v1/completions`, restricted to the fields the
handler reads.  `none` means the key is absent from the JSON body. -/
structure CompReq where
  prompt : Option String := none
  model : Option String := none
  maxTokens : Option ℕ := none
  temperature : Option ℚ := none
  topP : Option ℚ := none
  stop : Option (List String) := none
  stream : Bool := false
  thinking : Option PyThinking := none
  maxThinkingTokens : Option PyNum := none
  thinkingMaxTokens : Option PyNum := none
  maxThinkingLength : Option PyNum := none
  enableExtendedOutput : Bool := false
  enableComputerUse : Bool := false
deriving DecidableEq, Repr

/-- The request body of `POST /v1/chat/completions`, restricted to the fields
the handler reads. -/
structure ChatReq where
  messages : List Message := []
  model : Option String := none
  maxTokens : Option ℕ := none
  temperature : Option ℚ := none
  topP : Option ℚ := none
  stop : Option (List String) := none
  stream : Bool := false
  thinking : Option PyThinking := none
  maxThinkingTokens : Option PyNum := none
  thinkingMaxTokens : Option PyNum := none
  maxThinkingLength : Option PyNum := none
  enableExtendedOutput : Bool := false
  enableComputerUse : Bool := false
deriving DecidableEq, Repr

/-- Python `not prompt or not prompt.strip()` on `req.get('prompt')`
(lines 412-415): absent, empty, or whitespace-only. -/
def promptEmpty : Option String → Bool
  | none => true
  | some s => s == "" || pyStrip s == ""

/-- The `if 'claude-3-7' in model_name` block shared verbatim by the two
handlers (lines 469-509 and 754-794): attach the computed thinking dict when
thinking mode is on (a `TypeError` from the budget computation propagates),
then set the `anthropic_beta` flags for extended output and computer use. -/
def applyClaude37Block (modelName : String) (utm : Bool)
    (f1 f2 f3 : Option PyNum) (extOut compUse : Bool) (maxTokens : ℕ)
    (p : BedParams) : Except Unit BedParams := do
  if strContains modelName "claude-3-7" then
    let p ←
      if utm then do
        let b ← computeThinkingBudget f1 f2 f3 maxTokens
        pure { p with thinking := some ⟨some "enabled", some (.intV b)⟩ }
      else pure p
    let p := if extOut ∧ 64000 < maxTokens then
        { p with anthropicBeta := ["output-128k-2025-02-19"] } else p
    let p := if compUse then
        { p with anthropicBeta := p.anthropicBeta ++ ["computer_20250212"] }
      else p
    return p
  else
    return p

/-- Python `if stop: bed_params['stop_sequences'] = stop` (line 511 and, with
the single-string-to-list wrap, lines 796-797); an absent or empty list is
falsy and leaves the key unset. -/
def applyStop (stop : Option (List String)) (p : BedParams) : BedParams :=
  match stop with
  | some l => if l ≠ [] then { p with stopSequences := some l } else p
  | none => p

/-- `req.get('model', 'claude-3-7-sonnet')` of the completions handler
(line 424). -/
def modelNameC (req : CompReq) : String := req.model.getD "claude-3-7-sonnet"

/-- The effective `max_tokens` of the completions handler: the request value
(default `DEFAULT_MAX_TOKENS`) capped at `MAX_OUTPUT_TOKENS`
(lines 421, 443-445). -/
def effMaxTokensC (req : CompReq) : ℕ :=
  let m := req.maxTokens.getD DEFAULT_MAX_TOKENS
  if m > MAX_OUTPUT_TOKENS then MAX_OUTPUT_TOKENS else m

/-- The base `bed_params` dict of the completions handler (lines 452-466):
version, max_tokens, temperature, the single user message, and `top_p` only
outside thinking mode. -/
def compBaseParams (req : CompReq) : BedParams :=
  let base : BedParams :=
    { maxTokens := (effMaxTokensC req : ℤ)
      temperature := req.temperature.getD 1
      topP := none
      messages := [⟨"user", .str (req.prompt.getD "")⟩]
      thinking := none
      stopSequences := none
      anthropicBeta := [] }
  if useThinkingMode (modelNameC req) req.thinking then base
  else { base with topP := some (req.topP.getD 1) }

/-- The `/v1/completions` handler (lines 403-526) up to the point where the
Bedrock body is handed to `invoke_with_retry`; the streaming and non-streaming
branches serialize the same `bed_params`, so the dispatched body does not
depend on `stream`. -/
def completions (req : CompReq) : HandlerResult :=
  if promptEmpty req.prompt then .badRequest "Prompt cannot be empty"
  else
    match applyClaude37Block (modelNameC req)
        (useThinkingMode (modelNameC req) req.thinking) req.maxThinkingTokens
        req.thinkingMaxTokens req.maxThinkingLength req.enableExtendedOutput
        req.enableComputerUse (effMaxTokensC req) (compBaseParams req) with
    | .error _ => .serverError
    | .ok p => .dispatch (applyStop req.stop p)

/-- Python truthiness of a message's content and the filter predicate of
lines 721-735: a string content counts when non-empty after `strip()`, a
multimodal list counts when some `text`-typed item has non-empty text. -/
def hasContent : MsgContent → Bool
  | .str s => s != "" && pyStrip s != ""
  | .list items => items.any fun it => it.type_ == some "text" && it.text != ""

/-- The message filter of lines 721-735: drop contentless messages except a
trailing assistant message. -/
def filteredMessages (msgs : List Message) : List Message :=
  (msgs.enum.filter fun im =>
      hasContent im.2.content ||
        (im.1 == msgs.length - 1 && im.2.role == "assistant")).map (·.2)

/-- `req.get('model', 'claude-3-7-sonnet')` of the chat handler (line 695). -/
def modelNameCh (req : ChatReq) : String := req.model.getD "claude-3-7-sonnet"

/-- The effective `max_tokens` of the chat handler (lines 711, 717-719). -/
def effMaxTokensCh (req : ChatReq) : ℕ :=
  let m := req.maxTokens.getD DEFAULT_MAX_TOKENS
  if m > MAX_OUTPUT_TOKENS then MAX_OUTPUT_TOKENS else m

/-- The base `bed_params` dict of the chat handler (lines 742-751). -/
def chatBaseParams (req : ChatReq) : BedParams :=
  let base : BedParams :=
    { maxTokens := (effMaxTokensCh req : ℤ)
      temperature := req.temperature.getD 1
      topP := none
      messages := filteredMessages req.messages
      thinking := none
      stopSequences := none
      anthropicBeta := [] }
  if useThinkingMode (modelNameCh req) req.thinking then base
  else { base with topP := some (req.topP.getD 1) }

/-- The `/v1/chat/completions` handler (lines 683-921) up to the point where
the Bedrock body is handed to `invoke_with_retry`. -/
def chat_completions (req : ChatReq) : HandlerResult :=
  let fmsgs := filteredMessages req.messages
  if fmsgs = [] ∨ ¬ (fmsgs.any fun m => m.role == "user") then
    .badRequest "At least one user message with content is required"
  else
    match applyClaude37Block (modelNameCh req)
        (useThinkingMode (modelNameCh req) req.thinking) req.maxThinkingTokens
        req.thinkingMaxTokens req.maxThinkingLength req.enableExtendedOutput
        req.enableComputerUse (effMaxTokensCh req) (chatBaseParams req) with
    | .error _ => .serverError
    | .ok p => .dispatch (applyStop req.stop p)

/-- Lines 207-236 of `validate_bedrock_request`: normalize an existing
`thinking` dict — force `type = "enabled"`, default a missing
`budget_tokens` to 4000, coerce it to an int (falling back to 4000 on
failure), and clamp it below at 1024. -/
def validateThinkingStep (td0 : ThinkingDict) : ThinkingDict :=
  let td := if td0.type_ ≠ some "enabled" then
      { td0 with type_ := some "enabled" } else td0
  match td.budgetTokens with
  | none => { td with budgetTokens := some (.intV 4000) }
  | some v =>
    match pyIntCoerce v with
    | some b =>
      { td with budgetTokens := some (.intV (if b < 1024 then 1024 else b)) }
    | none => { td with budgetTokens := some (.intV 4000) }

/-- Lines 276-300 of `validate_bedrock_request`: when a thinking dict is
present, re-read its budget (int coercion, 4000 fallback written back on
failure), bump `max_tokens` to `budget + 1` whenever `max_tokens ≤ budget`,
and delete `top_p`. -/
def validateFinal (p : BedParams) : BedParams :=
  match p.thinking with
  | none => p
  | some td =>
    let coerced : ℤ :=
      match td.budgetTokens with
      | none => 0
      | some v =>
        match pyIntCoerce v with
        | some b => b
        | none => 4000
    let td' :=
      match td.budgetTokens with
      | some v =>
        match pyIntCoerce v with
        | none => { td with budgetTokens := some (.intV 4000) }
        | some _ => td
      | none => td
    let p := { p with thinking := some td' }
    let p := if p.maxTokens ≤ coerced then { p with maxTokens := coerced + 1 }
      else p
    { p with topP := none }

/-- Embedding of `validate_bedrock_request` (lines 181-305) on the `BedParams`
shape the two handlers produce.  The handlers always build `thinking` as a
dict, so the `not isinstance(thinking, dict)` reset (lines 211-215) has no
separate constructor here; `max_tokens` is always an int in `BedParams`, so
the two `int(max_tokens)` fallbacks to defaults (lines 245-247, 287-290)
always take their success path.  The `int(max_tokens * 0.8)` of the auto-add
branch is `4 * mt / 5` (exact on the reachable range). -/
def validate_bedrock_request (modelNameTag : Option String) (p0 : BedParams) :
    BedParams :=
  let model_is_thinking := modelNameTag == some "claude-3-7-sonnet-thinking"
  let isThinkingEnabled := (p0.thinking).isSome
  let p :=
    match p0.thinking with
    | none => p0
    | some td => { p0 with thinking := some (validateThinkingStep td) }
  let p := if (isThinkingEnabled ∨ model_is_thinking) ∧ p.maxTokens < 1024 then
      { p with maxTokens := 1024 } else p
  let p :=
    if model_is_thinking ∧ p.thinking = none then
      let mt := p.maxTokens
      let mt := if mt < 1024 then 1024 else mt
      let tb := max 1024 (min (4 * mt / 5) (mt - 1))
      { p with maxTokens := mt
               thinking := some ⟨some "enabled", some (.intV tb)⟩ }
    else p
  validateFinal p

/-- `MODEL_MAPPING.get(model_name, DEFAULT_MODEL_ID)` (lines 425, 696). -/
def modelIdOf (modelName : String) : String :=
  (MODEL_MAPPING.lookup modelName).getD DEFAULT_MODEL_ID

/-- The reverse lookup `next((k for k, v in MODEL_MAPPING.items() if
v == model_id), '')` of line 325, as an `Option` (the `''` default is falsy
and leaves `_model_name` unset). -/
def reverseLookup (modelId : String) : Option String :=
  (MODEL_MAPPING.find? fun kv => kv.2 == modelId).map (·.1)

/-- Lines 311-337 of `invoke_with_retry`: only when `DEBUG_MODE` is true is
the serialized body parsed back, tagged with `_model_name` (when the reverse
lookup finds one), passed through `validate_bedrock_request`, and re-serialized
as the body actually dispatched; with `DEBUG_MODE` false the handler's body is
dispatched untouched. -/
def debugBodyRewrite (debug : Bool) (modelName : String) (p : BedParams) :
    BedParams :=
  if debug then
    validate_bedrock_request (reverseLookup (modelIdOf modelName)) p
  else p

/-- End-to-end body pipeline for `/v1/completions`: handler, then the
debug-only rewrite inside `invoke_with_retry`.  The `dispatch` payload is the
exact JSON body the Bedrock client receives. -/
def completionsPipeline (debug : Bool) (req : CompReq) : HandlerResult :=
  match completions req with
  | .dispatch p =>
    .dispatch (debugBodyRewrite debug (req.model.getD "claude-3-7-sonnet") p)
  | r => r

/-- End-to-end body pipeline for `/v1/chat/completions`. -/
def chatPipeline (debug : Bool) (req : ChatReq) : HandlerResult :=
  match chat_completions req with
  | .dispatch p =>
    .dispatch (debugBodyRewrite debug (req.model.getD "claude-3-7-sonnet") p)
  | r => r

/-- The budget the dispatched body carries, when a thinking dict with an
integer budget is present. -/
def budgetOf (p : BedParams) : Option ℤ :=
  match p.thinking with
  | some ⟨_, some (.intV b)⟩ => some b
  | _ => none

/-- Projection of a handler result onto the dispatched body. -/
def dispatchedParams : HandlerResult → Option BedParams
  | .dispatch p => some p
  | _ => none

/-- Python truthiness of an optional string (`if stop_reason:`): present and
non-empty. -/
def truthyOptStr : Option String → Bool
  | none => false
  | some s => s != ""

/-- A parsed backend frame as the `/v1/completions` stream loop reads it
(lines 529-533): `chunk.get('delta', {}).get('text', '')` and
`chunk.get('stop_reason', None)`. -/
structure CompFrame where
  deltaText : String
  stopReason : Option String
deriving DecidableEq, Repr

/-- One emitted SSE item of the completions stream: a data frame carrying
`choices[0].{text, finish_reason}`, or the `data: [DONE]` sentinel (which this
endpoint's loop never produces). -/
inductive CompSSE
  | chunk (text : String) (finishReason : Option String)
  | done
deriving DecidableEq, Repr

/-- The `/v1/completions` `generate_stream` loop (lines 527-547): emit a frame
when the delta text is non-empty (with `finish_reason = stop_reason or None`),
and `break` out of the loop after a frame with a truthy `stop_reason`. -/
def compStream : List CompFrame → List CompSSE
  | [] => []
  | f :: fs =>
    let out := if f.deltaText ≠ "" then
        [CompSSE.chunk f.deltaText
          (if truthyOptStr f.stopReason then f.stopReason else none)]
      else []
    if truthyOptStr f.stopReason then out else out ++ compStream fs

/-- The inner `delta` dict of a chat stream frame, with the fields read on
lines 822-892: `delta.get('type')`, `delta.get('thinking', '')`,
`delta.get('text', '')`, `delta.get('stop_reason')`. -/
structure ChatDelta where
  type_ : Option String
  thinking : String
  text : String
  stopReason : Option String
deriving DecidableEq, Repr

/-- A parsed backend frame as the `/v1/chat/completions` stream loop reads it:
`chunk.get('type', '')`, `chunk.get('delta', {})`,
`chunk.get('stop_reason', None)`. -/
structure ChatFrame where
  type_ : String
  delta : ChatDelta
  stopReason : Option String
deriving DecidableEq, Repr

/-- The payload-distinguishing part of an emitted chat chunk's `delta`. -/
inductive DeltaKind
  | content (s : String)
  | thinkingD (s : String)
  | empty
deriving DecidableEq, Repr

/-- One emitted SSE item of the chat stream: a `chat.completion.chunk` frame
(identified by its delta payload and `finish_reason`) or the `data: [DONE]`
sentinel. -/
inductive ChatSSE
  | chunk (delta : DeltaKind) (finishReason : Option String)
  | done
deriving DecidableEq, Repr

/-- The SSE items one backend frame contributes in the chat `generate_stream`
loop (lines 812-910): thinking/text deltas are emitted when non-empty, a
`message_delta` with a truthy `stop_reason` emits a finish chunk (mapping
`end_turn` to `stop`) followed by `[DONE]`, an untagged legacy frame emits its
text (with `finish_reason = stop_reason or None`) and, on a truthy top-level
`stop_reason`, `[DONE]`; any other tag is ignored.  The loop does not break
after `[DONE]`. -/
def chatFrameOut (f : ChatFrame) : List ChatSSE :=
  if f.type_ = "content_block_delta" then
    if f.delta.type_ = some "thinking_delta" then
      if f.delta.thinking ≠ "" then [.chunk (.thinkingD f.delta.thinking) none]
      else []
    else if f.delta.type_ = some "text_delta" then
      if f.delta.text ≠ "" then [.chunk (.content f.delta.text) none]
      else []
    else []
  else if f.type_ = "message_delta" then
    if truthyOptStr f.delta.stopReason then
      let sr := (f.delta.stopReason).getD ""
      [.chunk .empty (some (if sr = "end_turn" then "stop" else sr)), .done]
    else []
  else if f.type_ = "" then
    (if f.delta.text ≠ "" then
        [ChatSSE.chunk (.content f.delta.text)
          (if truthyOptStr f.stopReason then f.stopReason else none)]
      else []) ++
    (if truthyOptStr f.stopReason then [ChatSSE.done] else [])
  else []

/-- The whole chat stream output: frames are translated one by one, in
arrival order. -/
def chatStream : List ChatFrame → List ChatSSE
  | [] => []
  | f :: fs => chatFrameOut f ++ chatStream fs

/-- Whether a chat SSE item is the `[DONE]` sentinel. -/
def isDoneItem : ChatSSE → Bool
  | .done => true
  | _ => false

/-- Whether a completions SSE item is the `[DONE]` sentinel. -/
def isDoneItemC : CompSSE → Bool
  | .done => true
  | _ => false

/-- Whether a chat backend frame makes the loop emit the `[DONE]` sentinel. -/
def emitsDone (f : ChatFrame) : Bool :=
  (f.type_ == "message_delta" && truthyOptStr f.delta.stopReason) ||
    (f.type_ == "" && truthyOptStr f.stopReason)

/-- A backend failure as classified by the retry loop (lines 379-401): a
botocore `ClientError` carrying an error code, or any other exception. -/
inductive AwsErr
  | clientError (code : String) (msg : String)
  | otherExn
deriving DecidableEq, Repr

/-- Whether the error is retried: a `ClientError` whose code is
`ThrottlingException` (line 387); every other error re-raises at once. -/
def errRetryable : AwsErr → Bool
  | .clientError c _ => c == "ThrottlingException"
  | .otherExn => false

/-- Observable outcome of one `invoke_with_retry` call: the final result, the
number of backend attempts made, and the sleeps performed (in order). -/
structure RetryRun (R : Type) where
  result : Except AwsErr R
  attempts : ℕ
  sleeps : List ℚ
deriving Repr

/-- The `while retries <= MAX_RETRIES` loop of lines 352-401.  `backend k` is
the outcome of attempt `k` (0-indexed) and `jitter k` the value
`random.uniform(0, 1)` drawn before retry `k`.  The fuel argument dominates
the loop (`invoke_with_retry` enters with fuel `MAX_RETRIES + 1`, which the
`retries < MAX_RETRIES` guard never exhausts). -/
def retryLoop {R : Type} (backend : ℕ → Except AwsErr R) (jitter : ℕ → ℚ) :
    ℕ → ℕ → RetryRun R
  | _, 0 => ⟨.error .otherExn, 0, []⟩
  | k, fuel + 1 =>
    match backend k with
    | .ok r => ⟨.ok r, 1, []⟩
    | .error e =>
      if errRetryable e ∧ k < MAX_RETRIES then
        let d := min MAX_DELAY (BASE_DELAY * 2 ^ k + jitter k)
        let rest := retryLoop backend jitter (k + 1) fuel
        ⟨rest.result, rest.attempts + 1, d :: rest.sleeps⟩
      else ⟨.error e, 1, []⟩

/-- `invoke_with_retry` (lines 307-401), abstracted over the backend call and
the jitter draw; the body-rewriting debug block is modeled separately by
`debugBodyRewrite`. -/
def invoke_with_retry {R : Type} (backend : ℕ → Except AwsErr R)
    (jitter : ℕ → ℚ) : RetryRun R :=
  retryLoop backend jitter 0 (MAX_RETRIES + 1)

/-- A non-streaming Bedrock response body, with the fields the translation
code reads.  `content` distinguishes a content list from a bare (string)
value; `completion` is `bed_response.get('completion', '')`; `thinkingTop` is
`bed_response['thinking'].get('text', '')` when a top-level `thinking` object
exists (`none` when the key is absent). -/
structure BedResponse where
  content : Option (Sum (List ContentItem) String)
  completion : String
  thinkingTop : Option String
  stopReason : Option String
deriving DecidableEq, Repr

/-- Text extraction (lines 564-577 / 928-941): concatenate the `text` of
`text`-typed items of a content list; otherwise fall back to the legacy
`completion` field; otherwise stringify a truthy bare `content` value or give
the empty string.  (The `isinstance(content_obj, list)` probe inside the
legacy branch can no longer see a list: any list `content` took the first
branch.) -/
def extractContent (r : BedResponse) : String :=
  match r.content with
  | some (.inl items) =>
    items.foldl (fun acc it =>
      if it.type_ == some "text" then acc ++ it.text else acc) ""
  | other =>
    let c := r.completion
    if c ≠ "" then c
    else
      match other with
      | some (.inr s) => if s ≠ "" then s else ""
      | _ => ""

/-- Thinking extraction (lines 580-600 / 943-964), reached only when the model
name contains `claude-3-7` and thinking mode is on: prefer the top-level
`thinking` object's text; otherwise join the `thinking` fields of
`thinking`-typed content items with single spaces.  (Iterating a bare string
`content` would raise an `AttributeError` in Python; only the list shape is
modeled, a bare value contributes no thinking blocks.) -/
def extractThinking (r : BedResponse) : String :=
  let t0 := (r.thinkingTop).getD ""
  if t0 ≠ "" then t0
  else
    match r.content with
    | some (.inl items) =>
      let blocks := items.foldr (fun it acc =>
        if it.type_ == some "thinking" then it.thinking :: acc else acc) []
      if blocks ≠ [] then String.intercalate " " blocks else ""
    | _ => ""

/-- The `usage` object of a non-streaming response. -/
structure Usage where
  promptTokens : ℕ
  completionTokens : ℕ
  totalTokens : ℕ
  thinkingTokens : Option ℕ
deriving DecidableEq, Repr

/-- The parts of a non-streaming OpenAI-format response the claims speak
about: the choice's text, its optional `thinking` field, the finish reason and
the usage block. -/
structure OpenAIResponse where
  text : String
  finishReason : String
  thinking : Option String
  usage : Usage
deriving DecidableEq, Repr

/-- Non-streaming `/v1/completions` response construction (lines 558-627),
abstracted over the tokenizer `count` (the source's tiktoken-based
`count_tokens`). -/
def buildCompletionResponse (count : String → ℕ) (modelName : String)
    (utm : Bool) (prompt : String) (r : BedResponse) : OpenAIResponse :=
  let content := extractContent r
  let thinkingContent :=
    if strContains modelName "claude-3-7" ∧ utm then extractThinking r else ""
  let stopReason := (r.stopReason).getD "stop"
  let promptTokens := count prompt
  let completionTokens := count content
  let thinkingTokens := if thinkingContent ≠ "" then count thinkingContent else 0
  let totalTokens := promptTokens + completionTokens + thinkingTokens
  { text := content
    finishReason := stopReason
    thinking := if thinkingContent ≠ "" then some thinkingContent else none
    usage :=
      { promptTokens
        completionTokens
        totalTokens
        thinkingTokens :=
          if thinkingContent ≠ "" then some thinkingTokens else none } }

/-- The chat prompt text `" ".join([msg.get('content', '') for msg in
messages])` (line 969), joining the original (unfiltered) messages; Python's
`join` raises a `TypeError` on a non-string (multimodal) content, modeled as
`none`. -/
def chatPromptText (msgs : List Message) : Option String :=
  if msgs.all fun m => match m.content with | .str _ => true | .list _ => false
  then
    some (String.intercalate " " (msgs.map fun m =>
      match m.content with | .str s => s | .list _ => ""))
  else none

/-- Non-streaming `/v1/chat/completions` response construction
(lines 922-1005), abstracted over the tokenizer; `none` when the prompt join
raises (the handler then answers HTTP 500). -/
def buildChatResponse (count : String → ℕ) (modelName : String) (utm : Bool)
    (msgs : List Message) (r : BedResponse) : Option OpenAIResponse :=
  (chatPromptText msgs).map fun promptText =>
    let content := extractContent r
    let thinkingContent :=
      if strContains modelName "claude-3-7" ∧ utm then extractThinking r else ""
    let stopReason := (r.stopReason).getD "stop"
    let promptTokens := count promptText
    let completionTokens := count content
    let thinkingTokens :=
      if thinkingContent ≠ "" then count thinkingContent else 0
    let totalTokens := promptTokens + completionTokens + thinkingTokens
    { text := content
      finishReason := if stopReason = "stop" then "stop" else stopReason
      thinking := if thinkingContent ≠ "" then some thinkingContent else none
      usage :=
        { promptTokens
          completionTokens
          totalTokens
          thinkingTokens :=
            if thinkingContent ≠ "" then some thinkingTokens else none } }

/-- A `content_block_delta`/`text_delta` backend frame carrying `t`. -/
def mkTextFrame (t : String) : ChatFrame :=
  ⟨"content_block_delta", ⟨some "text_delta", "", t, none⟩, none⟩

/-- A `message_delta` backend frame with `stop_reason = "end_turn"`. -/
def mkEndTurnFrame : ChatFrame :=
  ⟨"message_delta", ⟨none, "", "", some "end_turn"⟩, none⟩

/-- A backend that throttles on the first two attempts, then succeeds. -/
def throttleTwiceBackend : ℕ → Except AwsErr Unit := fun k =>
  if k < 2 then .error (.clientError "ThrottlingException" "throttled")
  else .ok ()

theorem chatStream_append (xs ys : List ChatFrame) :
    chatStream (xs ++ ys) = chatStream xs ++ chatStream ys := by
  induction xs with
  | nil => rfl
  | cons f fs ih => simp [chatStream, ih]

theorem chatFrameOut_done_count (f : ChatFrame) :
    (chatFrameOut f).countP isDoneItem = if emitsDone f = true then 1 else 0 := by
  obtain ⟨ty, ⟨dty, dth, dtx, dsr⟩, sr⟩ := f
  simp only [chatFrameOut, emitsDone]
  split_ifs <;>
    simp_all [List.countP_append, List.countP_cons, isDoneItem, truthyOptStr]

theorem chatStream_done_count (fs : List ChatFrame) :
    (chatStream fs).countP isDoneItem = fs.countP emitsDone := by
  induction fs with
  | nil => rfl
  | cons f fs ih =>
    simp [chatStream, List.countP_append, List.countP_cons,
      chatFrameOut_done_count, ih]
    split_ifs <;> omega

theorem chatFrameOut_getLast (f : ChatFrame) (h : emitsDone f = true) :
    (chatFrameOut f).getLast? = some ChatSSE.done := by
  obtain ⟨ty, ⟨dty, dth, dtx, dsr⟩, sr⟩ := f
  simp only [emitsDone] at h
  simp only [chatFrameOut]
  split_ifs <;> simp_all [truthyOptStr]

theorem compStream_no_done (fs : List CompFrame) :
    (compStream fs).countP isDoneItemC = 0 := by
  induction fs with
  | nil => rfl
  | cons f fs ih =>
    simp only [compStream]
    split_ifs <;>
      simp_all [List.countP_append, List.countP_cons, isDoneItemC]

/-- Claim C4, as stated, is false: the `/v1/completions` streaming loop never
emits the `data: [DONE]` sentinel; on the frame sequence consisting of one
legacy frame with text `"hi"` and stop reason `end_turn` the endpoint emits
zero sentinels, not exactly one. -/
theorem C4_counterexample :
    (compStream [⟨"hi", some "end_turn"⟩]).countP isDoneItemC = 0 ∧
      (0 : ℕ) ≠ 1 := by
  exact ⟨rfl, by decide⟩

/-- Claim C4 amended: the completions streaming endpoint emits no `[DONE]`
sentinel at all; the chat streaming endpoint, on any backend sequence whose
only stop-signaling frame is the final one, emits exactly one `[DONE]`, and it
is the last emitted item (hence after every content-bearing frame). -/
theorem C4_done_sentinel_amended :
    (∀ fs : List CompFrame, (compStream fs).countP isDoneItemC = 0) ∧
    (∀ (gs : List ChatFrame) (f : ChatFrame),
      (∀ g ∈ gs, emitsDone g = false) → emitsDone f = true →
        (chatStream (gs ++ [f])).countP isDoneItem = 1 ∧
        (chatStream (gs ++ [f])).getLast? = some ChatSSE.done) := by
  refine ⟨compStream_no_done, fun gs f hg hf => ⟨?_, ?_⟩⟩
  · rw [chatStream_done_count, List.countP_append]
    have h0 : gs.countP emitsDone = 0 := by
      rw [List.countP_eq_zero]
      intro g hmem
      simp [hg g hmem]
    simp [h0, List.countP_cons, hf]
  · have hcs : chatStream (gs ++ [f]) = chatStream gs ++ chatFrameOut f := by
      rw [chatStream_append]; simp [chatStream]
    have hlast := chatFrameOut_getLast f hf
    have hne : chatFrameOut f ≠ [] := by
      intro hnil; rw [hnil] at hlast; simp at hlast
    rw [hcs, List.getLast?_append_of_ne_nil _ hne]
    exact hlast

theorem C4_witness :
    (compStream [⟨"a", none⟩, ⟨"b", some "end_turn"⟩]).countP isDoneItemC = 0 ∧
    ((∀ g ∈ [mkTextFrame "a"], emitsDone g = false) ∧
      emitsDone mkEndTurnFrame = true ∧
      (chatStream ([mkTextFrame "a"] ++ [mkEndTurnFrame])).countP isDoneItem = 1 ∧
      (chatStream ([mkTextFrame "a"] ++ [mkEndTurnFrame])).getLast? =
        some ChatSSE.done) := by
  refine ⟨C4_done_sentinel_amended.1 _, by decide, by decide, ?_⟩
  exact C4_done_sentinel_amended.2 [mkTextFrame "a"] mkEndTurnFrame
    (by decide) (by decide)

/-- Claim C7: on the chat streaming endpoint, `N` `text_delta` frames with
non-empty deltas followed by one `message_delta` with stop reason `end_turn`
produce exactly the `N` content chunks in arrival order, then one chunk with
`finish_reason = "stop"`, then the single `[DONE]` sentinel. -/
theorem C7_chat_stream_order (ts : List String) (h : ∀ t ∈ ts, t ≠ "") :
    chatStream (ts.map mkTextFrame ++ [mkEndTurnFrame]) =
      ts.map (fun t => ChatSSE.chunk (.content t) none) ++
        [ChatSSE.chunk .empty (some "stop"), ChatSSE.done] := by
  induction ts with
  | nil => rfl
  | cons t ts ih =>
    have ht : t ≠ "" := h t (by simp)
    have hrest := ih fun x hx => h x (by simp [hx])
    simp [chatStream, chatFrameOut, mkTextFrame, ht, hrest]

theorem C7_witness :
    chatStream (["a", "b"].map mkTextFrame ++ [mkEndTurnFrame]) =
      ["a", "b"].map (fun t => ChatSSE.chunk (.content t) none) ++
        [ChatSSE.chunk .empty (some "stop"), ChatSSE.done] :=
  C7_chat_stream_order ["a", "b"] (by decide)

theorem retryLoop_attempts_le {R : Type} (backend : ℕ → Except AwsErr R)
    (jitter : ℕ → ℚ) : ∀ (fuel k : ℕ),
    (retryLoop backend jitter k fuel).attempts ≤ fuel := by
  intro fuel
  induction fuel with
  | zero => intro k; simp [retryLoop]
  | succ n ih =>
    intro k
    simp only [retryLoop]
    cases hb : backend k with
    | ok r => simp
    | error e =>
      dsimp only
      split_ifs with hcond
      · simpa using Nat.succ_le_succ (ih (k + 1))
      · simp

/-- Claim C3, as stated, is false on the attempt bound: with `MAX_RETRIES = 5`
the loop `while retries <= MAX_RETRIES` performs one initial attempt plus up
to five retries, so a backend throttling on every attempt sees 6 attempts,
not at most 5. -/
theorem C3_counterexample :
    (invoke_with_retry
      (fun _ => (.error (.clientError "ThrottlingException" "throttled") :
        Except AwsErr Unit))
      (fun _ => 0)).attempts = 6 ∧ ¬ (6 ≤ 5) := by
  constructor
  · rfl
  · decide

/-- Claim C3 amended: at most `MAX_RETRIES + 1 = 6` total attempts (not 5);
only throttling-classified errors are retried — any other backend error
propagates at once after a single attempt with no sleeps; a backend throttling
on every attempt exhausts the retries with 6 attempts and surfaces the
throttling error; and a backend throttling on attempts 0 and 1 and succeeding
on attempt 2 yields exactly 3 attempts and the two sleeps
`min(30, 2^k + jitter k)` for `k = 0, 1`, each within `[2^k, 2^k + 1)` when
the jitter lies in `[0, 1)`. -/
theorem C3_retry_amended :
    (∀ (R : Type) (backend : ℕ → Except AwsErr R) (jitter : ℕ → ℚ),
        (invoke_with_retry backend jitter).attempts ≤ MAX_RETRIES + 1) ∧
    (∀ (R : Type) (backend : ℕ → Except AwsErr R) (jitter : ℕ → ℚ)
        (e : AwsErr), backend 0 = .error e → errRetryable e = false →
        invoke_with_retry backend jitter =
          ⟨.error e, 1, []⟩) ∧
    (∀ (R : Type) (backend : ℕ → Except AwsErr R) (jitter : ℕ → ℚ)
        (e : AwsErr), (∀ k, backend k = .error e) → errRetryable e = true →
        (invoke_with_retry backend jitter).result = .error e ∧
        (invoke_with_retry backend jitter).attempts = MAX_RETRIES + 1) ∧
    (∀ (R : Type) (backend : ℕ → Except AwsErr R) (jitter : ℕ → ℚ)
        (e : AwsErr) (res : R),
        backend 0 = .error e → backend 1 = .error e → backend 2 = .ok res →
        errRetryable e = true → (∀ k, 0 ≤ jitter k ∧ jitter k < 1) →
        invoke_with_retry backend jitter =
          ⟨.ok res, 3, [1 + jitter 0, 2 + jitter 1]⟩ ∧
        1 ≤ 1 + jitter 0 ∧ 1 + jitter 0 < 2 ∧
        2 ≤ 2 + jitter 1 ∧ 2 + jitter 1 < 3) := by
  refine ⟨?_, ?_, ?_, ?_⟩
  · intro R backend jitter
    exact retryLoop_attempts_le backend jitter (MAX_RETRIES + 1) 0
  · intro R backend jitter e h0 hnr
    simp [invoke_with_retry, retryLoop, h0, hnr]
  · intro R backend jitter e hall hr
    constructor <;>
      simp [invoke_with_retry, retryLoop, hall 0, hall 1, hall 2, hall 3,
        hall 4, hall 5, hr, MAX_RETRIES]
  · intro R backend jitter e res h0 h1 h2 hr hj
    have hj0 := hj 0
    have hj1 := hj 1
    have hmin0 : min MAX_DELAY (BASE_DELAY + jitter 0) = 1 + jitter 0 := by
      rw [MAX_DELAY, BASE_DELAY,
        min_eq_right (by linarith [hj0.2] : (1 : ℚ) + jitter 0 ≤ 30)]
    have hmin1 : min MAX_DELAY (BASE_DELAY * 2 + jitter 1) = 2 + jitter 1 := by
      rw [MAX_DELAY, BASE_DELAY,
        min_eq_right (by linarith [hj1.2] : (1 : ℚ) * 2 + jitter 1 ≤ 30)]
      ring
    refine ⟨?_, by linarith [hj0.1], by linarith [hj0.2],
      by linarith [hj1.1], by linarith [hj1.2]⟩
    simp only [invoke_with_retry, retryLoop, h0, h1, h2, hr, MAX_RETRIES,
      pow_zero, pow_one]
    norm_num
    exact ⟨hmin0, hmin1⟩

theorem C3_witness :
    invoke_with_retry throttleTwiceBackend (fun _ => (1 : ℚ) / 2) =
      ⟨.ok (), 3, [3 / 2, 5 / 2]⟩ ∧
    invoke_with_retry
        (fun _ => (.error (.clientError "ValidationException" "bad") :
          Except AwsErr Unit))
        (fun _ => (1 : ℚ) / 2) =
      ⟨.error (.clientError "ValidationException" "bad"), 1, []⟩ := by
  constructor
  · have := (C3_retry_amended.2.2.2) Unit throttleTwiceBackend
      (fun _ => (1 : ℚ) / 2) (.clientError "ThrottlingException" "throttled")
      () rfl rfl rfl rfl (by intro k; constructor <;> norm_num)
    rw [this.1]
    norm_num
  · exact (C3_retry_amended.2.1) Unit _ (fun _ => (1 : ℚ) / 2)
      (.clientError "ValidationException" "bad") rfl rfl

theorem computeThinkingBudget_default (mt : ℕ) (h1 : 1280 ≤ mt)
    (h2 : mt ≤ 4000) :
    computeThinkingBudget none none none mt = .ok (specDefaultBudget mt) := by
  have hdiv : (mt / 2 : ℕ) ≤ 2000 := by omega
  have hmax : max (4000 : ℤ) ((mt / 2 : ℕ) : ℤ) = 4000 := by
    rw [max_eq_left]
    exact_mod_cast le_trans (Nat.cast_le.mpr hdiv) (by norm_num)
  simp only [computeThinkingBudget, firstTruthyNum, truthyNumOpt, if_neg,
    Bool.false_eq_true, not_false_eq_true, pyMax1024, hmax, bind, Except.bind,
    pure, Except.pure]
  have hb : max (1024 : ℤ) 4000 = 4000 := by norm_num
  rw [hb]
  have hcond : (4000 : ℤ) ≥ (mt : ℤ) := by exact_mod_cast h2
  rw [if_pos hcond]
  unfold specDefaultBudget int08
  congr 1
  have hle : (4 * mt / 5 : ℕ) ≤ mt - 1 := by omega
  have hge : (1024 : ℕ) ≤ 4 * mt / 5 := by omega
  have hcast : ((mt : ℤ) - 1) = ((mt - 1 : ℕ) : ℤ) := by omega
  rw [hcast, min_eq_left (by exact_mod_cast hle),
    max_eq_right (by exact_mod_cast hge)]

theorem computeThinkingBudget_bounds (f1 f2 f3 : Option PyNum) (mt : ℕ)
    (b : ℤ) (h : computeThinkingBudget f1 f2 f3 mt = .ok b)
    (hmt : 1280 ≤ mt) : 1024 ≤ b ∧ b < (mt : ℤ) := by
  unfold computeThinkingBudget at h
  cases hft : firstTruthyNum f1 f2 f3 with
  | none =>
    rw [hft] at h
    simp only [pyMax1024, bind, Except.bind] at h
    split_ifs at h with hc <;>
      simp only [pure, Except.pure, Except.ok.injEq] at h <;> subst h
    · unfold int08
      constructor
      · exact_mod_cast (by omega : (1024 : ℕ) ≤ 4 * mt / 5)
      · exact_mod_cast (by omega : 4 * mt / 5 < mt)
    · exact ⟨le_max_left _ _, not_le.mp hc⟩
  | some v =>
    rw [hft] at h
    cases v with
    | strV s => simp [pyMax1024, bind, Except.bind] at h
    | intV n =>
      simp only [pyMax1024, bind, Except.bind] at h
      split_ifs at h with hc <;>
        simp only [pure, Except.pure, Except.ok.injEq] at h <;> subst h
      · unfold int08
        constructor
        · exact_mod_cast (by omega : (1024 : ℕ) ≤ 4 * mt / 5)
        · exact_mod_cast (by omega : 4 * mt / 5 < mt)
      · exact ⟨le_max_left _ _, not_le.mp hc⟩

theorem computeThinkingBudget_strV (f1 f2 f3 : Option PyNum) (mt : ℕ)
    (s : String) (h : firstTruthyNum f1 f2 f3 = some (.strV s)) :
    computeThinkingBudget f1 f2 f3 mt = .error () := by
  unfold computeThinkingBudget
  rw [h]
  rfl

theorem applyStop_fields (stop : Option (List String)) (p : BedParams) :
    (applyStop stop p).topP = p.topP ∧
    (applyStop stop p).thinking = p.thinking ∧
    (applyStop stop p).maxTokens = p.maxTokens ∧
    (applyStop stop p).messages = p.messages := by
  unfold applyStop
  cases stop with
  | none => exact ⟨rfl, rfl, rfl, rfl⟩
  | some l =>
    dsimp only
    split_ifs <;> exact ⟨rfl, rfl, rfl, rfl⟩

theorem applyClaude37Block_fields {modelName : String} {utm : Bool}
    {f1 f2 f3 : Option PyNum} {extOut compUse : Bool} {maxTokens : ℕ}
    {p q : BedParams}
    (h : applyClaude37Block modelName utm f1 f2 f3 extOut compUse maxTokens p
      = .ok q) :
    q.topP = p.topP ∧ q.maxTokens = p.maxTokens ∧ q.messages = p.messages ∧
      (q.thinking = p.thinking ∨
        (utm = true ∧ strContains modelName "claude-3-7" = true ∧
          ∃ b, computeThinkingBudget f1 f2 f3 maxTokens = .ok b ∧
            q.thinking = some ⟨some "enabled", some (.intV b)⟩)) := by
  unfold applyClaude37Block at h
  by_cases hm : strContains modelName "claude-3-7" = true
  · rw [if_pos hm] at h
    cases hu : utm with
    | false =>
      rw [hu] at h
      simp only [Bool.false_eq_true, if_neg, not_false_eq_true, pure,
        Except.pure, bind, Except.bind] at h
      split_ifs at h <;>
        simp only [Except.ok.injEq] at h <;> subst h <;>
          exact ⟨rfl, rfl, rfl, Or.inl rfl⟩
    | true =>
      rw [hu] at h
      simp only [if_pos, bind, Except.bind] at h
      cases hcb : computeThinkingBudget f1 f2 f3 maxTokens with
      | error e => rw [hcb] at h; simp [Except.bind] at h
      | ok b =>
        rw [hcb] at h
        simp only [pure, Except.pure] at h
        split_ifs at h <;>
          simp only [Except.ok.injEq] at h <;> subst h <;>
            exact ⟨rfl, rfl, rfl, Or.inr ⟨rfl, hm, b, rfl, rfl⟩⟩
  · rw [if_neg hm] at h
    simp only [pure, Except.pure, Except.ok.injEq] at h
    subst h
    exact ⟨rfl, rfl, rfl, Or.inl rfl⟩

theorem applyClaude37Block_utm {modelName : String}
    {f1 f2 f3 : Option PyNum} (extOut compUse : Bool) {maxTokens : ℕ}
    (p : BedParams) {b : ℤ}
    (hm : strContains modelName "claude-3-7" = true)
    (hb : computeThinkingBudget f1 f2 f3 maxTokens = .ok b) :
    ∃ q, applyClaude37Block modelName true f1 f2 f3 extOut compUse maxTokens p
        = .ok q ∧
      q.thinking = some ⟨some "enabled", some (.intV b)⟩ ∧
      q.topP = p.topP ∧ q.maxTokens = p.maxTokens ∧ q.messages = p.messages := by
  unfold applyClaude37Block
  rw [if_pos hm]
  simp only [if_pos, bind, Except.bind, hb, pure, Except.pure]
  split_ifs <;> exact ⟨_, rfl, rfl, rfl, rfl, rfl⟩

theorem applyClaude37Block_error {modelName : String}
    {f1 f2 f3 : Option PyNum} (extOut compUse : Bool) {maxTokens : ℕ}
    (p : BedParams)
    (hm : strContains modelName "claude-3-7" = true)
    (hb : computeThinkingBudget f1 f2 f3 maxTokens = .error ()) :
    applyClaude37Block modelName true f1 f2 f3 extOut compUse maxTokens p
      = .error () := by
  unfold applyClaude37Block
  rw [if_pos hm]
  simp [bind, Except.bind, hb]

theorem validateThinkingStep_budget (td : ThinkingDict) :
    ∃ b : ℤ, (validateThinkingStep td).budgetTokens = some (.intV b) ∧
      1024 ≤ b := by
  obtain ⟨ty, bud⟩ := td
  cases bud with
  | none =>
    simp only [validateThinkingStep]
    split_ifs <;> exact ⟨4000, rfl, by norm_num⟩
  | some v =>
    simp only [validateThinkingStep]
    split_ifs <;>
    · cases hc : pyIntCoerce v with
      | none => simp only [hc]; exact ⟨4000, rfl, by norm_num⟩
      | some b =>
        simp only [hc]
        refine ⟨if b < 1024 then 1024 else b, rfl, ?_⟩
        split_ifs <;> omega

theorem validateThinkingStep_intV (ty : Option String) (b : ℤ)
    (hb : 1024 ≤ b) :
    validateThinkingStep ⟨ty, some (.intV b)⟩ =
      ⟨some "enabled", some (.intV b)⟩ := by
  simp only [validateThinkingStep, pyIntCoerce]
  split_ifs with h1
  · simp [if_neg (not_lt.mpr hb)]
  · rw [not_ne_iff.mp h1]
    simp [if_neg (not_lt.mpr hb)]

theorem validateFinal_none (mtk : ℤ) (tmp : ℚ) (tp : Option ℚ)
    (msg : List Message) (ss : Option (List String)) (ab : List String) :
    validateFinal ⟨mtk, tmp, tp, msg, none, ss, ab⟩ =
      ⟨mtk, tmp, tp, msg, none, ss, ab⟩ := rfl

theorem validateFinal_intV (mtk : ℤ) (tmp : ℚ) (tp : Option ℚ)
    (msg : List Message) (ss : Option (List String)) (ab : List String)
    (ty : Option String) (b : ℤ) :
    validateFinal ⟨mtk, tmp, tp, msg, some ⟨ty, some (.intV b)⟩, ss, ab⟩ =
      ⟨if mtk ≤ b then b + 1 else mtk, tmp, none, msg,
        some ⟨ty, some (.intV b)⟩, ss, ab⟩ := by
  unfold validateFinal
  dsimp only [pyIntCoerce]
  split_ifs <;> rfl

theorem validate_some_eq (tag : Option String) (mtk : ℤ) (tmp : ℚ)
    (tp : Option ℚ) (msg : List Message) (ss : Option (List String))
    (ab : List String) (td : ThinkingDict) :
    validate_bedrock_request tag ⟨mtk, tmp, tp, msg, some td, ss, ab⟩ =
      validateFinal ⟨if mtk < 1024 then 1024 else mtk, tmp, tp, msg,
        some (validateThinkingStep td), ss, ab⟩ := by
  simp [validate_bedrock_request]
  split_ifs <;> first | rfl | simp_all

theorem validate_none_eq (tag : Option String) (mtk : ℤ) (tmp : ℚ)
    (tp : Option ℚ) (msg : List Message) (ss : Option (List String))
    (ab : List String) :
    validate_bedrock_request tag ⟨mtk, tmp, tp, msg, none, ss, ab⟩ =
      (if (tag == some "claude-3-7-sonnet-thinking") = true then
        validateFinal ⟨if mtk < 1024 then 1024 else mtk, tmp, tp, msg,
          some ⟨some "enabled", some (.intV (max 1024
            (min (4 * (if mtk < 1024 then 1024 else mtk) / 5)
              ((if mtk < 1024 then 1024 else mtk) - 1))))⟩, ss, ab⟩
      else ⟨mtk, tmp, tp, msg, none, ss, ab⟩) := by
  simp [validate_bedrock_request]
  split_ifs <;> first | rfl | simp_all

theorem validateFinal_budget_bounds (mtk : ℤ) (tmp : ℚ) (tp : Option ℚ)
    (msg : List Message) (ss : Option (List String)) (ab : List String)
    (ty : Option String) (b0 b : ℤ) (hge : 1024 ≤ b0)
    (h : budgetOf (validateFinal
      ⟨mtk, tmp, tp, msg, some ⟨ty, some (.intV b0)⟩, ss, ab⟩) = some b) :
    1024 ≤ b ∧ b < (validateFinal
      ⟨mtk, tmp, tp, msg, some ⟨ty, some (.intV b0)⟩, ss, ab⟩).maxTokens := by
  rw [validateFinal_intV] at h ⊢
  have hred : budgetOf (⟨if mtk ≤ b0 then b0 + 1 else mtk, tmp, none, msg,
      some ⟨ty, some (.intV b0)⟩, ss, ab⟩ : BedParams) = some b0 := rfl
  rw [hred] at h
  have hb : b = b0 := (Option.some.inj h).symm
  subst hb
  refine ⟨hge, ?_⟩
  show b < if mtk ≤ b then b + 1 else mtk
  split_ifs with h2 <;> omega

theorem validate_budget_invariant (tag : Option String) (p : BedParams)
    (b : ℤ) (h : budgetOf (validate_bedrock_request tag p) = some b) :
    1024 ≤ b ∧ b < (validate_bedrock_request tag p).maxTokens := by
  obtain ⟨mtk, tmp, tp, msg, th, ss, ab⟩ := p
  cases th with
  | some td =>
    rw [validate_some_eq] at h ⊢
    obtain ⟨b0, hb0, hge⟩ := validateThinkingStep_budget td
    rcases htd1 : validateThinkingStep td with ⟨ty1, bud1⟩
    try rw [htd1] at hb0
    try rw [htd1] at h
    try rw [htd1]
    have hb1 : bud1 = some (PyNum.intV b0) := hb0
    subst hb1
    exact validateFinal_budget_bounds _ _ _ _ _ _ _ _ _ hge h
  | none =>
    rw [validate_none_eq] at h ⊢
    by_cases hm : (tag == some "claude-3-7-sonnet-thinking") = true
    · rw [if_pos hm] at h ⊢
      exact validateFinal_budget_bounds _ _ _ _ _ _ _ _ _ (le_max_left _ _) h
    · rw [if_neg hm] at h
      exact Option.noConfusion h

theorem validate_topP (tag : Option String) (p : BedParams) :
    (validate_bedrock_request tag p).topP = none ∨
      (validate_bedrock_request tag p).topP = p.topP := by
  obtain ⟨mtk, tmp, tp, msg, th, ss, ab⟩ := p
  cases th with
  | some td =>
    rw [validate_some_eq]
    obtain ⟨b0, hb0, hge⟩ := validateThinkingStep_budget td
    rcases htd1 : validateThinkingStep td with ⟨ty1, bud1⟩
    try rw [htd1] at hb0
    have hb1 : bud1 = some (PyNum.intV b0) := hb0
    subst hb1
    rw [validateFinal_intV]
    exact Or.inl rfl
  | none =>
    rw [validate_none_eq]
    by_cases hm : (tag == some "claude-3-7-sonnet-thinking") = true
    · rw [if_pos hm, validateFinal_intV]
      exact Or.inl rfl
    · rw [if_neg hm]
      exact Or.inr rfl

theorem validate_budget_preserve (tag : Option String) (p : BedParams)
    (ty : Option String) (b : ℤ)
    (hth : p.thinking = some ⟨ty, some (.intV b)⟩) (hb : 1024 ≤ b) :
    budgetOf (validate_bedrock_request tag p) = some b := by
  obtain ⟨mtk, tmp, tp, msg, th, ss, ab⟩ := p
  have hth1 : th = some ⟨ty, some (.intV b)⟩ := hth
  subst hth1
  rw [validate_some_eq, validateThinkingStep_intV ty b hb, validateFinal_intV]
  rfl

theorem compBaseParams_utm (req : CompReq)
    (hu : useThinkingMode (modelNameC req) req.thinking = true) :
    compBaseParams req =
      { maxTokens := (effMaxTokensC req : ℤ)
        temperature := req.temperature.getD 1
        topP := none
        messages := [⟨"user", .str (req.prompt.getD "")⟩]
        thinking := none
        stopSequences := none
        anthropicBeta := [] } := by
  unfold compBaseParams
  rw [if_pos hu]

theorem chatBaseParams_utm (req : ChatReq)
    (hu : useThinkingMode (modelNameCh req) req.thinking = true) :
    chatBaseParams req =
      { maxTokens := (effMaxTokensCh req : ℤ)
        temperature := req.temperature.getD 1
        topP := none
        messages := filteredMessages req.messages
        thinking := none
        stopSequences := none
        anthropicBeta := [] } := by
  unfold chatBaseParams
  rw [if_pos hu]

theorem effMaxTokensC_ge (req : CompReq)
    (h : 1280 ≤ req.maxTokens.getD DEFAULT_MAX_TOKENS) :
    1280 ≤ effMaxTokensC req := by
  unfold effMaxTokensC
  dsimp only
  split_ifs with h1
  · norm_num [MAX_OUTPUT_TOKENS]
  · exact h

theorem effMaxTokensCh_ge (req : ChatReq)
    (h : 1280 ≤ req.maxTokens.getD DEFAULT_MAX_TOKENS) :
    1280 ≤ effMaxTokensCh req := by
  unfold effMaxTokensCh
  dsimp only
  split_ifs with h1
  · norm_num [MAX_OUTPUT_TOKENS]
  · exact h

theorem firstTruthyNum_none (a b c : Option PyNum)
    (ha : truthyNumOpt a = false) (hb : truthyNumOpt b = false)
    (hc : truthyNumOpt c = false) : firstTruthyNum a b c = none := by
  unfold firstTruthyNum
  rw [ha, hb, hc]
  rfl

theorem completions_dispatch_eq (req : CompReq) (q : BedParams)
    (hp : promptEmpty req.prompt = false)
    (hq : applyClaude37Block (modelNameC req)
        (useThinkingMode (modelNameC req) req.thinking) req.maxThinkingTokens
        req.thinkingMaxTokens req.maxThinkingLength req.enableExtendedOutput
        req.enableComputerUse (effMaxTokensC req) (compBaseParams req)
      = .ok q) :
    completions req = .dispatch (applyStop req.stop q) := by
  unfold completions
  rw [hp, if_neg Bool.false_ne_true, hq]

theorem completions_serverError_eq (req : CompReq)
    (hp : promptEmpty req.prompt = false)
    (hq : applyClaude37Block (modelNameC req)
        (useThinkingMode (modelNameC req) req.thinking) req.maxThinkingTokens
        req.thinkingMaxTokens req.maxThinkingLength req.enableExtendedOutput
        req.enableComputerUse (effMaxTokensC req) (compBaseParams req)
      = .error ()) :
    completions req = .serverError := by
  unfold completions
  rw [hp, if_neg Bool.false_ne_true, hq]

theorem completions_dispatch_inv (req : CompReq) (p : BedParams)
    (h : completions req = .dispatch p) :
    ∃ q, applyClaude37Block (modelNameC req)
        (useThinkingMode (modelNameC req) req.thinking) req.maxThinkingTokens
        req.thinkingMaxTokens req.maxThinkingLength req.enableExtendedOutput
        req.enableComputerUse (effMaxTokensC req) (compBaseParams req)
      = .ok q ∧ p = applyStop req.stop q := by
  unfold completions at h
  by_cases hp : promptEmpty req.prompt = true
  · rw [if_pos hp] at h
    exact absurd h (by simp)
  · rw [if_neg hp] at h
    cases hb : applyClaude37Block (modelNameC req)
        (useThinkingMode (modelNameC req) req.thinking) req.maxThinkingTokens
        req.thinkingMaxTokens req.maxThinkingLength req.enableExtendedOutput
        req.enableComputerUse (effMaxTokensC req) (compBaseParams req) with
    | error e =>
      rw [hb] at h
      exact absurd h (by simp)
    | ok q =>
      rw [hb] at h
      simp only [HandlerResult.dispatch.injEq] at h
      exact ⟨q, rfl, h.symm⟩

theorem chat_dispatch_eq (req : ChatReq) (q : BedParams)
    (hmsg : ¬ (filteredMessages req.messages = [] ∨
      ¬ (filteredMessages req.messages).any fun m => m.role == "user"))
    (hq : applyClaude37Block (modelNameCh req)
        (useThinkingMode (modelNameCh req) req.thinking) req.maxThinkingTokens
        req.thinkingMaxTokens req.maxThinkingLength req.enableExtendedOutput
        req.enableComputerUse (effMaxTokensCh req) (chatBaseParams req)
      = .ok q) :
    chat_completions req = .dispatch (applyStop req.stop q) := by
  unfold chat_completions
  rw [if_neg hmsg, hq]

theorem chat_dispatch_inv (req : ChatReq) (p : BedParams)
    (h : chat_completions req = .dispatch p) :
    ∃ q, applyClaude37Block (modelNameCh req)
        (useThinkingMode (modelNameCh req) req.thinking) req.maxThinkingTokens
        req.thinkingMaxTokens req.maxThinkingLength req.enableExtendedOutput
        req.enableComputerUse (effMaxTokensCh req) (chatBaseParams req)
      = .ok q ∧ p = applyStop req.stop q := by
  unfold chat_completions at h
  by_cases hmsg : filteredMessages req.messages = [] ∨
      ¬ (filteredMessages req.messages).any fun m => m.role == "user"
  · rw [if_pos hmsg] at h
    exact absurd h (by simp)
  · rw [if_neg hmsg] at h
    cases hb : applyClaude37Block (modelNameCh req)
        (useThinkingMode (modelNameCh req) req.thinking) req.maxThinkingTokens
        req.thinkingMaxTokens req.maxThinkingLength req.enableExtendedOutput
        req.enableComputerUse (effMaxTokensCh req) (chatBaseParams req) with
    | error e =>
      rw [hb] at h
      exact absurd h (by simp)
    | ok q =>
      rw [hb] at h
      simp only [HandlerResult.dispatch.injEq] at h
      exact ⟨q, rfl, h.symm⟩

theorem completionsPipeline_dispatch (debug : Bool) (req : CompReq)
    (p : BedParams) (h : completions req = .dispatch p) :
    completionsPipeline debug req = .dispatch (debugBodyRewrite debug
      (req.model.getD "claude-3-7-sonnet") p) := by
  unfold completionsPipeline
  rw [h]

theorem chatPipeline_dispatch (debug : Bool) (req : ChatReq)
    (p : BedParams) (h : chat_completions req = .dispatch p) :
    chatPipeline debug req = .dispatch (debugBodyRewrite debug
      (req.model.getD "claude-3-7-sonnet") p) := by
  unfold chatPipeline
  rw [h]

theorem completionsPipeline_dispatch_inv (debug : Bool) (req : CompReq)
    (p : BedParams) (h : completionsPipeline debug req = .dispatch p) :
    ∃ p0, completions req = .dispatch p0 ∧
      p = debugBodyRewrite debug (req.model.getD "claude-3-7-sonnet") p0 := by
  unfold completionsPipeline at h
  cases hc : completions req with
  | dispatch p0 =>
    rw [hc] at h
    simp only [HandlerResult.dispatch.injEq] at h
    exact ⟨p0, rfl, h.symm⟩
  | badRequest msg =>
    rw [hc] at h
    exact absurd h (by simp)
  | serverError =>
    rw [hc] at h
    exact absurd h (by simp)

theorem chatPipeline_dispatch_inv (debug : Bool) (req : ChatReq)
    (p : BedParams) (h : chatPipeline debug req = .dispatch p) :
    ∃ p0, chat_completions req = .dispatch p0 ∧
      p = debugBodyRewrite debug (req.model.getD "claude-3-7-sonnet") p0 := by
  unfold chatPipeline at h
  cases hc : chat_completions req with
  | dispatch p0 =>
    rw [hc] at h
    simp only [HandlerResult.dispatch.injEq] at h
    exact ⟨p0, rfl, h.symm⟩
  | badRequest msg =>
    rw [hc] at h
    exact absurd h (by simp)
  | serverError =>
    rw [hc] at h
    exact absurd h (by simp)

theorem debugBodyRewrite_false (name : String) (p : BedParams) :
    debugBodyRewrite false name p = p := rfl

theorem debugBodyRewrite_true (name : String) (p : BedParams) :
    debugBodyRewrite true name p =
      validate_bedrock_request (reverseLookup (modelIdOf name)) p := rfl

theorem budgetOf_eq (p : BedParams) (ty : Option String) (b : ℤ)
    (h : p.thinking = some ⟨ty, some (.intV b)⟩) : budgetOf p = some b := by
  unfold budgetOf
  rw [h]

theorem budgetOf_none (p : BedParams) (h : p.thinking = none) :
    budgetOf p = none := by
  unfold budgetOf
  rw [h]

theorem computeThinkingBudget_congr_none (f1 f2 f3 : Option PyNum) (mt : ℕ)
    (h : firstTruthyNum f1 f2 f3 = none) :
    computeThinkingBudget f1 f2 f3 mt =
      computeThinkingBudget none none none mt := by
  unfold computeThinkingBudget
  rw [h]
  rfl

theorem applyClaude37Block_not37 {modelName : String} {utm : Bool}
    {f1 f2 f3 : Option PyNum} {extOut compUse : Bool} {maxTokens : ℕ}
    {p : BedParams} (hm : strContains modelName "claude-3-7" = false) :
    applyClaude37Block modelName utm f1 f2 f3 extOut compUse maxTokens p
      = .ok p := by
  unfold applyClaude37Block
  rw [hm, if_neg Bool.false_ne_true]
  rfl

theorem reverseLookup_not_thinking (m : String) :
    reverseLookup (modelIdOf m) ≠ some "claude-3-7-sonnet-thinking" := by
  unfold modelIdOf
  cases h : MODEL_MAPPING.lookup m with
  | none => decide
  | some v =>
    have hgd : (some v).getD DEFAULT_MODEL_ID = v := rfl
    rw [hgd]
    obtain ⟨l₁, l₂, heq, -⟩ := List.lookup_eq_some_iff.mp h
    have hmem : (m, v) ∈ MODEL_MAPPING := by rw [heq]; simp
    have hv : v ∈ MODEL_MAPPING.map Prod.snd := List.mem_map_of_mem _ hmem
    simp only [AwsClaude.MODEL_MAPPING, List.map_cons, List.map_nil,
      List.mem_cons, List.not_mem_nil, or_false] at hv
    rcases hv with rfl | rfl | rfl | rfl | rfl | rfl | rfl | rfl <;> decide

theorem validate_thinking_none (tag : Option String) (p : BedParams)
    (h : p.thinking = none)
    (hnotag : tag ≠ some "claude-3-7-sonnet-thinking") :
    validate_bedrock_request tag p = p := by
  obtain ⟨mtk, tmp, tp, msg, th, ss, ab⟩ := p
  have h1 : th = none := h
  subst h1
  rw [validate_none_eq, if_neg]
  simp only [beq_iff_eq]
  exact hnotag

theorem validateThinkingStep_badStr (ty : Option String) (s : String)
    (hs : pyInt? s = none) :
    validateThinkingStep ⟨ty, some (.strV s)⟩ =
      ⟨some "enabled", some (.intV 4000)⟩ := by
  simp only [validateThinkingStep, pyIntCoerce]
  split_ifs with h1
  · simp [hs]
  · rw [not_ne_iff.mp h1]
    simp [hs]

theorem chatBaseParams_messages (req : ChatReq) :
    (chatBaseParams req).messages = filteredMessages req.messages := by
  unfold chatBaseParams
  dsimp only
  split_ifs <;> rfl

/-- Claim C1, as stated, is false: for a reasoning-enabled request with no
explicit budget and `maxTokens = 10000`, the handlers compute
`max(4000, int(10000/2)) = 5000` (< 10000, so no reset) and dispatch budget
5000, while the spec formula `max(1024, min(floor(0.8·10000), 9999))` gives
8000. -/
theorem C1_counterexample :
    (dispatchedParams (completionsPipeline false
      { prompt := some "hi", model := some "claude-3-7-sonnet-thinking",
        maxTokens := some 10000 })).bind budgetOf = some 5000 ∧
    specDefaultBudget 10000 = 8000 ∧ (5000 : ℤ) ≠ 8000 :=
  ⟨by decide, by decide, by decide⟩

/-- Claim C1 amended: for a reasoning-enabled request with no explicit
client-supplied budget, whenever `1280 ≤ maxTokens ≤ 4000` the dispatched
thinking budget equals the spec's
`max(1024, min(floor(0.8·maxTokens), maxTokens − 1))` (in that range the
code's `max(4000, floor(maxTokens/2))` is at least `maxTokens` and is reset
to `floor(0.8·maxTokens)`, which coincides with the spec formula); in
particular `maxTokens = 2000` gives `budgetTokens = 1600`.  Outside that
range the code's default `max(4000, floor(maxTokens/2))` (reset to
`floor(0.8·maxTokens)` when `≥ maxTokens`) can differ from the spec formula,
as the counterexample at `maxTokens = 10000` shows.  Holds for both
endpoints and with or without `DEBUG_MODE`. -/
theorem C1_default_budget_amended (debug : Bool) (req : CompReq)
    (creq : ChatReq) (mt : ℕ) (h1 : 1280 ≤ mt) (h2 : mt ≤ 4000)
    (hp : promptEmpty req.prompt = false)
    (hmt : req.maxTokens = some mt)
    (hm : strContains (modelNameC req) "claude-3-7" = true)
    (hu : useThinkingMode (modelNameC req) req.thinking = true)
    (hf1 : truthyNumOpt req.maxThinkingTokens = false)
    (hf2 : truthyNumOpt req.thinkingMaxTokens = false)
    (hf3 : truthyNumOpt req.maxThinkingLength = false)
    (hcmt : creq.maxTokens = some mt)
    (hcm : strContains (modelNameCh creq) "claude-3-7" = true)
    (hcu : useThinkingMode (modelNameCh creq) creq.thinking = true)
    (hcf1 : truthyNumOpt creq.maxThinkingTokens = false)
    (hcf2 : truthyNumOpt creq.thinkingMaxTokens = false)
    (hcf3 : truthyNumOpt creq.maxThinkingLength = false)
    (hcmsg : ¬ (filteredMessages creq.messages = [] ∨
      ¬ (filteredMessages creq.messages).any fun m => m.role == "user")) :
    (dispatchedParams (completionsPipeline debug req)).bind budgetOf =
      some (specDefaultBudget mt) ∧
    (dispatchedParams (chatPipeline debug creq)).bind budgetOf =
      some (specDefaultBudget mt) := by
  have hspec_ge : (1024 : ℤ) ≤ specDefaultBudget mt := le_max_left _ _
  have heff : effMaxTokensC req = mt := by
    unfold effMaxTokensC
    rw [hmt]
    simp only [Option.getD_some]
    rw [if_neg]
    unfold MAX_OUTPUT_TOKENS
    omega
  have hceff : effMaxTokensCh creq = mt := by
    unfold effMaxTokensCh
    rw [hcmt]
    simp only [Option.getD_some]
    rw [if_neg]
    unfold MAX_OUTPUT_TOKENS
    omega
  constructor
  · have hcb : computeThinkingBudget req.maxThinkingTokens
        req.thinkingMaxTokens req.maxThinkingLength (effMaxTokensC req) =
        .ok (specDefaultBudget mt) := by
      rw [computeThinkingBudget_congr_none _ _ _ _
        (firstTruthyNum_none _ _ _ hf1 hf2 hf3), heff]
      exact computeThinkingBudget_default mt h1 h2
    obtain ⟨q, hq, hqth, hqtp, hqmt, hqmsg⟩ :=
      applyClaude37Block_utm req.enableExtendedOutput req.enableComputerUse
        (compBaseParams req) hm hcb
    rw [← hu] at hq
    have hc := completions_dispatch_eq req q hp hq
    rw [completionsPipeline_dispatch debug req _ hc]
    obtain ⟨hstp, hsth, hsmt, hsmsg⟩ := applyStop_fields req.stop q
    have hth : (applyStop req.stop q).thinking =
        some ⟨some "enabled", some (.intV (specDefaultBudget mt))⟩ :=
      hsth.trans hqth
    cases debug with
    | false =>
      rw [debugBodyRewrite_false]
      simp only [dispatchedParams, Option.some_bind]
      exact budgetOf_eq _ _ _ hth
    | true =>
      rw [debugBodyRewrite_true]
      simp only [dispatchedParams, Option.some_bind]
      exact validate_budget_preserve _ _ _ _ hth hspec_ge
  · have hcb : computeThinkingBudget creq.maxThinkingTokens
        creq.thinkingMaxTokens creq.maxThinkingLength (effMaxTokensCh creq) =
        .ok (specDefaultBudget mt) := by
      rw [computeThinkingBudget_congr_none _ _ _ _
        (firstTruthyNum_none _ _ _ hcf1 hcf2 hcf3), hceff]
      exact computeThinkingBudget_default mt h1 h2
    obtain ⟨q, hq, hqth, hqtp, hqmt, hqmsg⟩ :=
      applyClaude37Block_utm creq.enableExtendedOutput creq.enableComputerUse
        (chatBaseParams creq) hcm hcb
    rw [← hcu] at hq
    have hc := chat_dispatch_eq creq q hcmsg hq
    rw [chatPipeline_dispatch debug creq _ hc]
    obtain ⟨hstp, hsth, hsmt, hsmsg⟩ := applyStop_fields creq.stop q
    have hth : (applyStop creq.stop q).thinking =
        some ⟨some "enabled", some (.intV (specDefaultBudget mt))⟩ :=
      hsth.trans hqth
    cases debug with
    | false =>
      rw [debugBodyRewrite_false]
      simp only [dispatchedParams, Option.some_bind]
      exact budgetOf_eq _ _ _ hth
    | true =>
      rw [debugBodyRewrite_true]
      simp only [dispatchedParams, Option.some_bind]
      exact validate_budget_preserve _ _ _ _ hth hspec_ge

theorem C1_witness :
    (dispatchedParams (completionsPipeline false
      { prompt := some "hi", model := some "claude-3-7-sonnet-thinking",
        maxTokens := some 2000 })).bind budgetOf = some 1600 ∧
    (dispatchedParams (chatPipeline false
      { messages := [⟨"user", .str "hi"⟩],
        model := some "claude-3-7-sonnet-thinking",
        maxTokens := some 2000 })).bind budgetOf = some 1600 := by
  have h := C1_default_budget_amended false
    { prompt := some "hi", model := some "claude-3-7-sonnet-thinking",
      maxTokens := some 2000 }
    { messages := [⟨"user", .str "hi"⟩],
      model := some "claude-3-7-sonnet-thinking", maxTokens := some 2000 }
    2000 (by decide) (by decide) (by decide) rfl (by decide) (by decide)
    rfl rfl rfl rfl (by decide) (by decide) rfl rfl rfl (by decide)
  rw [show specDefaultBudget 2000 = 1600 by decide] at h
  exact h

/-- Claim C2, as stated, is false: a reasoning-enabled completions request
with `maxTokens = 100` dispatches `budgetTokens = int(100 * 0.8) = 80`,
violating the claimed lower bound `1024 ≤ budgetTokens`. -/
theorem C2_counterexample :
    (dispatchedParams (completionsPipeline false
      { prompt := some "hi", model := some "claude-3-7-sonnet-thinking",
        maxTokens := some 100 })).bind budgetOf = some 80 ∧
    ¬ (1024 ≤ (80 : ℤ)) :=
  ⟨by decide, by decide⟩

/-- Claim C2 amended: for every reasoning-enabled request whose requested
`max_tokens` is at least 1280, the dispatched body carries no `topP` and any
attached thinking budget satisfies `1024 ≤ budgetTokens < maxTokens`; below
1280 the lower bound can fail (the `int(0.8·maxTokens)` reset drops under
1024, see the counterexample), though `topP` remains absent. -/
theorem C2_invariant_amended (debug : Bool) (req : CompReq) (creq : ChatReq)
    (hu : useThinkingMode (modelNameC req) req.thinking = true)
    (hmt : 1280 ≤ req.maxTokens.getD DEFAULT_MAX_TOKENS)
    (hcu : useThinkingMode (modelNameCh creq) creq.thinking = true)
    (hcmt : 1280 ≤ creq.maxTokens.getD DEFAULT_MAX_TOKENS) :
    (∀ p, completionsPipeline debug req = .dispatch p →
      p.topP = none ∧ ∀ b, budgetOf p = some b → 1024 ≤ b ∧ b < p.maxTokens) ∧
    (∀ p, chatPipeline debug creq = .dispatch p →
      p.topP = none ∧ ∀ b, budgetOf p = some b → 1024 ≤ b ∧ b < p.maxTokens) := by
  constructor
  · intro p hp
    obtain ⟨p0, hc, hpe⟩ := completionsPipeline_dispatch_inv debug req p hp
    obtain ⟨q, hq, hp0⟩ := completions_dispatch_inv req p0 hc
    obtain ⟨hqtp, hqmt, hqmsg, hqth⟩ := applyClaude37Block_fields hq
    have hbase := compBaseParams_utm req hu
    have hbtp : (compBaseParams req).topP = none := by rw [hbase]
    have hbth : (compBaseParams req).thinking = none := by rw [hbase]
    have hbmt : (compBaseParams req).maxTokens = (effMaxTokensC req : ℤ) := by
      rw [hbase]
    obtain ⟨hstp, hsth, hsmt, hsmsg⟩ := applyStop_fields req.stop q
    have hp0tp : p0.topP = none := by rw [hp0, hstp, hqtp, hbtp]
    have hp0mt : p0.maxTokens = (effMaxTokensC req : ℤ) := by
      rw [hp0, hsmt, hqmt, hbmt]
    cases debug with
    | false =>
      rw [debugBodyRewrite_false] at hpe
      subst hpe
      refine ⟨hp0tp, fun b hb => ?_⟩
      rcases hqth with hnone | ⟨-, -, b', hcb, hth⟩
      · rw [hp0, budgetOf_none _ (hsth.trans (hnone.trans hbth))] at hb
        exact Option.noConfusion hb
      · rw [hp0, budgetOf_eq _ _ _ (hsth.trans hth)] at hb
        have hb' : b = b' := (Option.some.inj hb).symm
        subst hb'
        have hbounds := computeThinkingBudget_bounds _ _ _ _ _ hcb
          (effMaxTokensC_ge req hmt)
        rw [hp0mt]
        exact hbounds
    | true =>
      rw [debugBodyRewrite_true] at hpe
      subst hpe
      constructor
      · rcases validate_topP (reverseLookup (modelIdOf
            (req.model.getD "claude-3-7-sonnet"))) p0 with h | h
        · exact h
        · rw [h, hp0tp]
      · intro b hb
        exact validate_budget_invariant _ p0 b hb
  · intro p hp
    obtain ⟨p0, hc, hpe⟩ := chatPipeline_dispatch_inv debug creq p hp
    obtain ⟨q, hq, hp0⟩ := chat_dispatch_inv creq p0 hc
    obtain ⟨hqtp, hqmt, hqmsg, hqth⟩ := applyClaude37Block_fields hq
    have hbase := chatBaseParams_utm creq hcu
    have hbtp : (chatBaseParams creq).topP = none := by rw [hbase]
    have hbth : (chatBaseParams creq).thinking = none := by rw [hbase]
    have hbmt : (chatBaseParams creq).maxTokens = (effMaxTokensCh creq : ℤ) := by
      rw [hbase]
    obtain ⟨hstp, hsth, hsmt, hsmsg⟩ := applyStop_fields creq.stop q
    have hp0tp : p0.topP = none := by rw [hp0, hstp, hqtp, hbtp]
    have hp0mt : p0.maxTokens = (effMaxTokensCh creq : ℤ) := by
      rw [hp0, hsmt, hqmt, hbmt]
    cases debug with
    | false =>
      rw [debugBodyRewrite_false] at hpe
      subst hpe
      refine ⟨hp0tp, fun b hb => ?_⟩
      rcases hqth with hnone | ⟨-, -, b', hcb, hth⟩
      · rw [hp0, budgetOf_none _ (hsth.trans (hnone.trans hbth))] at hb
        exact Option.noConfusion hb
      · rw [hp0, budgetOf_eq _ _ _ (hsth.trans hth)] at hb
        have hb' : b = b' := (Option.some.inj hb).symm
        subst hb'
        have hbounds := computeThinkingBudget_bounds _ _ _ _ _ hcb
          (effMaxTokensCh_ge creq hcmt)
        rw [hp0mt]
        exact hbounds
    | true =>
      rw [debugBodyRewrite_true] at hpe
      subst hpe
      constructor
      · rcases validate_topP (reverseLookup (modelIdOf
            (creq.model.getD "claude-3-7-sonnet"))) p0 with h | h
        · exact h
        · rw [h, hp0tp]
      · intro b hb
        exact validate_budget_invariant _ p0 b hb

theorem C2_witness :
    (⟨2000, 1, none, [⟨"user", MsgContent.str "hi"⟩],
        some ⟨some "enabled", some (PyNum.intV 1600)⟩, none, []⟩ :
      BedParams).topP = none ∧
    1024 ≤ (1600 : ℤ) ∧ (1600 : ℤ) <
      (⟨2000, 1, none, [⟨"user", MsgContent.str "hi"⟩],
          some ⟨some "enabled", some (PyNum.intV 1600)⟩, none, []⟩ :
        BedParams).maxTokens := by
  have h := (C2_invariant_amended false
    { prompt := some "hi", model := some "claude-3-7-sonnet-thinking",
      maxTokens := some 2000 }
    { messages := [⟨"user", .str "hi"⟩],
      model := some "claude-3-7-sonnet-thinking", maxTokens := some 2000 }
    (by decide) (by decide) (by decide) (by decide)).1
    ⟨2000, 1, none, [⟨"user", MsgContent.str "hi"⟩],
      some ⟨some "enabled", some (PyNum.intV 1600)⟩, none, []⟩ (by decide)
  exact ⟨h.1, (h.2 1600 (by decide)).1, (h.2 1600 (by decide)).2⟩

/-- Claim C5 is right about the intended normalization but the code never
runs it in production: `validate_bedrock_request` — the only place that
raises `max_tokens` to 1024 — is invoked solely inside the `if DEBUG_MODE:`
block of `invoke_with_retry`.  With `DEBUG_MODE` off (the default), a
reasoning-enabled request with `max_tokens = 1000` is dispatched with
`max_tokens` still 1000 (and budget 800); with `DEBUG_MODE` on, the validator
clamps the budget to 1024 and bumps `max_tokens` to 1025. -/
theorem C5_maxTokens_not_raised :
    (dispatchedParams (completionsPipeline false
      { prompt := some "hi", model := some "claude-3-7-sonnet-thinking",
        maxTokens := some 1000 })).map (fun p => p.maxTokens) = some 1000 ∧
    (dispatchedParams (completionsPipeline false
      { prompt := some "hi", model := some "claude-3-7-sonnet-thinking",
        maxTokens := some 1000 })).bind budgetOf = some 800 ∧
    (dispatchedParams (completionsPipeline true
      { prompt := some "hi", model := some "claude-3-7-sonnet-thinking",
        maxTokens := some 1000 })).map (fun p => p.maxTokens) = some 1025 ∧
    (dispatchedParams (completionsPipeline true
      { prompt := some "hi", model := some "claude-3-7-sonnet-thinking",
        maxTokens := some 1000 })).bind budgetOf = some 1024 :=
  ⟨by decide, by decide, by decide, by decide⟩

/-- Claim C6, as stated, is false: an explicit convenience-field budget that
cannot be coerced (here the string `"abc"`) makes the handler raise a
`TypeError` at `max(1024, thinking_budget)`, which the outer `except` turns
into an HTTP 500 — the request is not dispatched and no 4000 fallback
occurs. -/
theorem C6_counterexample :
    completionsPipeline false
      { prompt := some "hi", model := some "claude-3-7-sonnet",
        thinking := some (.boolV true),
        maxThinkingTokens := some (.strV "abc") } = .serverError := by
  decide

/-- Claim C6 amended: a malformed explicit budget in a convenience field
makes the handler raise (HTTP 500, nothing dispatched); the 4000 fallback of
the claim exists only in `validate_bedrock_request`, whose coercion of a
thinking dict's non-numeric `budget_tokens` does fall back to 4000. -/
theorem C6_malformed_budget_amended (debug : Bool) (req : CompReq)
    (s : String)
    (hp : promptEmpty req.prompt = false)
    (hm : strContains (modelNameC req) "claude-3-7" = true)
    (hu : useThinkingMode (modelNameC req) req.thinking = true)
    (hf : firstTruthyNum req.maxThinkingTokens req.thinkingMaxTokens
      req.maxThinkingLength = some (.strV s)) :
    completionsPipeline debug req = .serverError ∧
    (∀ (tag : Option String) (p : BedParams) (ty : Option String),
      p.thinking = some ⟨ty, some (.strV s)⟩ → pyInt? s = none →
      budgetOf (validate_bedrock_request tag p) = some 4000) := by
  constructor
  · have hcb := computeThinkingBudget_strV req.maxThinkingTokens
      req.thinkingMaxTokens req.maxThinkingLength (effMaxTokensC req) s hf
    have hblock := applyClaude37Block_error req.enableExtendedOutput
      req.enableComputerUse (compBaseParams req) hm hcb
    rw [← hu] at hblock
    have hcomp := completions_serverError_eq req hp hblock
    unfold completionsPipeline
    rw [hcomp]
  · intro tag p ty hth hs
    obtain ⟨mtk, tmp, tp, msg, th, ss, ab⟩ := p
    have hth1 : th = some ⟨ty, some (.strV s)⟩ := hth
    subst hth1
    rw [validate_some_eq, validateThinkingStep_badStr ty s hs,
      validateFinal_intV]
    rfl

theorem C6_witness :
    completionsPipeline false
      { prompt := some "hi", model := some "claude-3-7-sonnet",
        thinking := some (.boolV true),
        thinkingMaxTokens := some (.strV "oops") } = .serverError ∧
    budgetOf (validate_bedrock_request none
      ⟨4096, 1, none, [], some ⟨some "enabled", some (.strV "oops")⟩, none, []⟩)
      = some 4000 := by
  have h := C6_malformed_budget_amended false
    { prompt := some "hi", model := some "claude-3-7-sonnet",
      thinking := some (.boolV true),
      thinkingMaxTokens := some (.strV "oops") } "oops"
    (by decide) (by decide) (by decide) (by decide)
  exact ⟨h.1, h.2 none _ (some "enabled") rfl (by decide)⟩

/-- Claim C8: an empty or whitespace-only (or absent) prompt makes
`/v1/completions` answer HTTP 400 without reaching the backend; on
`/v1/chat/completions` contentless messages are dropped except a trailing
assistant message, every dispatched body carries exactly the filtered
messages, and when no user message remains the handler answers HTTP 400
without reaching the backend. -/
theorem C8_validation :
    (∀ req : CompReq, promptEmpty req.prompt = true →
      completions req = .badRequest "Prompt cannot be empty") ∧
    (∀ req : ChatReq,
      (filteredMessages req.messages).any (fun m => m.role == "user") = false →
      chat_completions req =
        .badRequest "At least one user message with content is required") ∧
    (∀ (msgs : List Message) (m : Message), m ∈ filteredMessages msgs →
      hasContent m.content = true ∨
        (m.role = "assistant" ∧ msgs.getLast? = some m)) ∧
    (∀ (req : ChatReq) (p : BedParams), chat_completions req = .dispatch p →
      p.messages = filteredMessages req.messages) := by
  refine ⟨?_, ?_, ?_, ?_⟩
  · intro req h
    unfold completions
    rw [h]
    rfl
  · intro req h
    unfold chat_completions
    rw [if_pos (Or.inr (by rw [h]; exact Bool.false_ne_true))]
  · intro msgs m hm
    unfold filteredMessages at hm
    simp only [List.mem_map] at hm
    obtain ⟨⟨i, m'⟩, hmem, heq⟩ := hm
    simp only at heq
    subst heq
    simp only [List.mem_filter] at hmem
    obtain ⟨henum, hpred⟩ := hmem
    simp only [Bool.or_eq_true, Bool.and_eq_true, beq_iff_eq] at hpred
    rcases hpred with h | ⟨hi, hrole⟩
    · exact Or.inl h
    · right
      refine ⟨hrole, ?_⟩
      rw [List.mk_mem_enum_iff_getElem?] at henum
      rw [List.getLast?_eq_getElem?]
      rw [hi] at henum
      exact henum
  · intro req p hdis
    obtain ⟨q, hq, hp⟩ := chat_dispatch_inv req p hdis
    obtain ⟨hqtp, hqmt, hqmsg, hqth⟩ := applyClaude37Block_fields hq
    obtain ⟨hstp, hsth, hsmt, hsmsg⟩ := applyStop_fields req.stop q
    rw [hp, hsmsg, hqmsg, chatBaseParams_messages]

theorem C8_witness :
    completions { prompt := some "   " } =
      .badRequest "Prompt cannot be empty" ∧
    chat_completions { messages := [⟨"assistant", MsgContent.str "x"⟩] } =
      .badRequest "At least one user message with content is required" ∧
    (hasContent (MsgContent.str "hello") = true ∨
      (("user" : String) = "assistant" ∧
        ([⟨"user", MsgContent.str "hello"⟩] : List Message).getLast? =
          some ⟨"user", MsgContent.str "hello"⟩)) ∧
    (⟨4096, 1, some 1, [⟨"user", MsgContent.str "hello"⟩], none, none, []⟩ :
      BedParams).messages =
        filteredMessages [⟨"user", MsgContent.str "hello"⟩] := by
  refine ⟨C8_validation.1 _ (by decide), C8_validation.2.1 _ (by decide),
    C8_validation.2.2.1 [⟨"user", MsgContent.str "hello"⟩]
      ⟨"user", MsgContent.str "hello"⟩ (by decide),
    C8_validation.2.2.2 { messages := [⟨"user", MsgContent.str "hello"⟩] } _
      (by decide)⟩

/-- Claim C9: a request whose alias does not contain `claude-3-7` (e.g.
`claude-3-opus`) but passes `thinking: true` is dispatched with no thinking
configuration at all, while `top_p` is nevertheless removed — on both
endpoints, with or without `DEBUG_MODE`. -/
theorem C9_non37_thinking (debug : Bool) (req : CompReq) (creq : ChatReq)
    (hm : strContains (modelNameC req) "claude-3-7" = false)
    (hu : useThinkingMode (modelNameC req) req.thinking = true)
    (hcm : strContains (modelNameCh creq) "claude-3-7" = false)
    (hcu : useThinkingMode (modelNameCh creq) creq.thinking = true) :
    (∀ p, completionsPipeline debug req = .dispatch p →
      p.thinking = none ∧ p.topP = none) ∧
    (∀ p, chatPipeline debug creq = .dispatch p →
      p.thinking = none ∧ p.topP = none) := by
  constructor
  · intro p hp
    obtain ⟨p0, hc, hpe⟩ := completionsPipeline_dispatch_inv debug req p hp
    obtain ⟨q, hq, hp0⟩ := completions_dispatch_inv req p0 hc
    rw [applyClaude37Block_not37 hm] at hq
    have hq' : q = compBaseParams req := (Except.ok.inj hq).symm
    subst hq'
    have hbase := compBaseParams_utm req hu
    obtain ⟨hstp, hsth, hsmt, hsmsg⟩ := applyStop_fields req.stop
      (compBaseParams req)
    have hp0th : p0.thinking = none := by
      rw [hp0, hsth, hbase]
    have hp0tp : p0.topP = none := by
      rw [hp0, hstp, hbase]
    cases debug with
    | false =>
      rw [debugBodyRewrite_false] at hpe
      subst hpe
      exact ⟨hp0th, hp0tp⟩
    | true =>
      rw [debugBodyRewrite_true] at hpe
      rw [validate_thinking_none _ p0 hp0th
        (reverseLookup_not_thinking _)] at hpe
      subst hpe
      exact ⟨hp0th, hp0tp⟩
  · intro p hp
    obtain ⟨p0, hc, hpe⟩ := chatPipeline_dispatch_inv debug creq p hp
    obtain ⟨q, hq, hp0⟩ := chat_dispatch_inv creq p0 hc
    rw [applyClaude37Block_not37 hcm] at hq
    have hq' : q = chatBaseParams creq := (Except.ok.inj hq).symm
    subst hq'
    have hbase := chatBaseParams_utm creq hcu
    obtain ⟨hstp, hsth, hsmt, hsmsg⟩ := applyStop_fields creq.stop
      (chatBaseParams creq)
    have hp0th : p0.thinking = none := by
      rw [hp0, hsth, hbase]
    have hp0tp : p0.topP = none := by
      rw [hp0, hstp, hbase]
    cases debug with
    | false =>
      rw [debugBodyRewrite_false] at hpe
      subst hpe
      exact ⟨hp0th, hp0tp⟩
    | true =>
      rw [debugBodyRewrite_true] at hpe
      rw [validate_thinking_none _ p0 hp0th
        (reverseLookup_not_thinking _)] at hpe
      subst hpe
      exact ⟨hp0th, hp0tp⟩

theorem C9_witness :
    (⟨4096, 1, none, [⟨"user", MsgContent.str "hi"⟩], none, none, []⟩ :
      BedParams).thinking = none ∧
    (⟨4096, 1, none, [⟨"user", MsgContent.str "hi"⟩], none, none, []⟩ :
      BedParams).topP = none := by
  exact (C9_non37_thinking false
    { prompt := some "hi", model := some "claude-3-opus",
      thinking := some (.boolV true), topP := some 1 }
    { messages := [⟨"user", .str "hi"⟩], model := some "claude-3-opus",
      thinking := some (.boolV true), topP := some 1 }
    (by decide) (by decide) (by decide) (by decide)).1
    ⟨4096, 1, none, [⟨"user", MsgContent.str "hi"⟩], none, none, []⟩
    (by decide)

/-- Claim C10: in every non-streaming response of both endpoints,
`usage.total_tokens` equals `usage.prompt_tokens + usage.completion_tokens`
plus the thinking token count, and the `usage.thinking_tokens` field is
present exactly when the response carries thinking content. -/
theorem C10_usage_total (count : String → ℕ) (modelName : String)
    (utm : Bool) (prompt : String) (r : BedResponse) (msgs : List Message) :
    ((buildCompletionResponse count modelName utm prompt r).usage.totalTokens =
       (buildCompletionResponse count modelName utm prompt r).usage.promptTokens
       + (buildCompletionResponse count modelName utm prompt
           r).usage.completionTokens +
       ((buildCompletionResponse count modelName utm prompt
           r).usage.thinkingTokens).getD 0 ∧
     ((buildCompletionResponse count modelName utm prompt
         r).usage.thinkingTokens).isSome =
       ((buildCompletionResponse count modelName utm prompt r).thinking).isSome)
    ∧
    (∀ resp, buildChatResponse count modelName utm msgs r = some resp →
      resp.usage.totalTokens = resp.usage.promptTokens +
        resp.usage.completionTokens + (resp.usage.thinkingTokens).getD 0 ∧
      (resp.usage.thinkingTokens).isSome = (resp.thinking).isSome) := by
  constructor
  · unfold buildCompletionResponse
    dsimp only
    split_ifs <;> simp
  · intro resp hresp
    unfold buildChatResponse at hresp
    cases hpt : chatPromptText msgs with
    | none =>
      rw [hpt] at hresp
      exact absurd hresp (by simp)
    | some ptxt =>
      rw [hpt] at hresp
      simp only [Option.map_some', Option.some.injEq] at hresp
      subst hresp
      dsimp only
      split_ifs <;> simp

theorem C10_witness :
    (⟨"", "stop", none, ⟨0, 0, 0, none⟩⟩ : OpenAIResponse).usage.totalTokens =
      (⟨"", "stop", none, ⟨0, 0, 0, none⟩⟩ :
        OpenAIResponse).usage.promptTokens +
      (⟨"", "stop", none, ⟨0, 0, 0, none⟩⟩ :
        OpenAIResponse).usage.completionTokens +
      ((⟨"", "stop", none, ⟨0, 0, 0, none⟩⟩ :
        OpenAIResponse).usage.thinkingTokens).getD 0 ∧
    ((⟨"", "stop", none, ⟨0, 0, 0, none⟩⟩ :
      OpenAIResponse).usage.thinkingTokens).isSome =
      ((⟨"", "stop", none, ⟨0, 0, 0, none⟩⟩ :
        OpenAIResponse).thinking).isSome := by
  exact (C10_usage_total (fun _ => 0) "m" false "" ⟨none, "", none, none⟩
    []).2 ⟨"", "stop", none, ⟨0, 0, 0, none⟩⟩ (by decide)

end AwsClaude
